import Mathlib

/-!
# isp_monitor

A shallow embedding of the statistics model, the plugin registries and their
registration at process start, the demultiplexer of the reporters, the constructors
of the collectors, their collect cycle and the scheduling loop that runs it.

Go's basic types are embedded as follows.  A `string` is a Lean `String`.  An
`int64` (and a `time.Duration`, which is an `int64` count of nanoseconds) is an
integer, a `uint64` a natural number; the conversions between them that can
overflow reduce modulo `2^64` explicitly.  A `float64` is Lean's IEEE-754
binary64 `Float`.  A pointer that the code compares with `nil` is an `Option`.
A run-time panic is a value of `Panic`.
-/

/-- Go's `string`. -/
abbrev string := String

/-- Go's `int64`, embedded in the integers. -/
abbrev int64 := Int

/-- Go's `uint64`, embedded in the natural numbers. -/
abbrev uint64 := Nat

/-- Go's `float64`. -/
abbrev float64 := Float

/-- Go's `error`: `none` is the nil error, `some msg` an error with that text. -/
abbrev error := Option String

/-- The run-time panics the embedded code can raise. -/
inductive Panic where
  | nilMapAssign
  | nilDereference
  | other (msg : String)
  deriving DecidableEq, Repr

namespace time

/-- Go's `time.Duration`: a count of nanoseconds held in an `int64`. -/
abbrev Duration := Int

/-- The constant `time.Millisecond`. -/
def Millisecond : Duration := 1000000

/-- The constant `time.Second`. -/
def Second : Duration := 1000000000

end time

/-- The conversion `int64(u)` of a `uint64`: the same 64 bits read as two's complement. -/
def int64OfUint64 (u : uint64) : int64 :=
  if u % 2 ^ 64 < 2 ^ 63 then ((u % 2 ^ 64 : Nat) : Int) else ((u % 2 ^ 64 : Nat) : Int) - 2 ^ 64

/-- The conversion `int64(f)` of a `float64`: the fraction is discarded (truncation
toward zero).  For a NaN or a value outside the `int64` range the Go specification
leaves the result to the implementation; this is the amd64 result, `-2^63`. -/
def int64OfFloat64 (f : float64) : int64 :=
  if f.isNaN then -(2 ^ 63 : Int)
  else if f ≥ 9223372036854775808.0 then -(2 ^ 63 : Int)
  else if f < -9223372036854775808.0 then -(2 ^ 63 : Int)
  else if f < 0 then -(((-f).toUInt64.toNat : Nat) : Int)
  else ((f.toUInt64.toNat : Nat) : Int)

/-- The conversion `float64(n)` of an `int64`. -/
def float64OfInt64 (n : int64) : float64 := Float.ofInt n

/-- The conversion `float64(u)` of a `uint64`. -/
def float64OfUint64 (u : uint64) : float64 := Float.ofNat u

namespace fmt

/-- The verb `%d` of `fmt.Sprintf` on a signed integer: its decimal rendering, with a
leading `-` for a negative number. -/
def sprintfD (n : Int) : string := toString n

/-- The verb `%d` of `fmt.Sprintf` on an unsigned integer. -/
def sprintfU (u : Nat) : string := toString u

/-- Rounds the non-negative rational `num / den` to the nearest natural number, a tie
going to the even neighbour. -/
def roundHalfEven (num den : Nat) : Nat :=
  let q := num / den
  let r := num % den
  if 2 * r > den then q + 1
  else if 2 * r = den ∧ q % 2 = 1 then q + 1
  else q

/-- The digits of `n`, padded with zeros on the left to at least `width` characters. -/
def padDigits (width : Nat) (n : Nat) : String :=
  let s := toString n
  String.mk (List.replicate (width - s.length) '0') ++ s

/-- The verb `%f` of `fmt.Sprintf` on a `float64`: fixed-point form with six digits
after the point, the exact value rounded to nearest-even. -/
def sprintfF (f : float64) : string :=
  if f.isNaN then "NaN"
  else if f.isInf then (if f < 0 then "-Inf" else "+Inf")
  else
    let negative : Bool := f < 0 ∨ (f == 0 ∧ (1 / f) < 0)
    let a := f.abs
    let (m, e) := a.frExp
    let mant : Nat := (m.scaleB 53).toUInt64.toNat
    let ex : Int := e - 53
    let scaled : Nat :=
      if 0 ≤ ex then mant * 2 ^ ex.toNat * 1000000
      else roundHalfEven (mant * 1000000) (2 ^ (-ex).toNat)
    (if negative then "-" else "") ++ toString (scaled / 1000000) ++ "." ++
      padDigits 6 (scaled % 1000000)

end fmt

namespace statistics

/-- The string type `statistics.Type`, the type of the statistics data. -/
abbrev StatType := String

/-- The constant `EventType`. -/
def EventType : StatType := "event"

/-- The constant `MetricTypeGauge`. -/
def MetricTypeGauge : StatType := "gauge"

/-- The constant `MetricTypeCount`. -/
def MetricTypeCount : StatType := "count"

/-- The constant `MetricTypeHistogram`. -/
def MetricTypeHistogram : StatType := "histogram"

/-- The constant `MetricTypeTiming`. -/
def MetricTypeTiming : StatType := "timing"

/-- The struct `Value`, a generic value holder: five pointer fields. -/
structure Value where
  stringValue : Option string := none
  floatValue : Option float64 := none
  intValue : Option int64 := none
  uintValue : Option uint64 := none
  duration : Option time.Duration := none

/-- The function `NewStringValue`. -/
def NewStringValue (val : string) : Value :=
  { stringValue := some val }

/-- The function `NewIntValue`. -/
def NewIntValue (val : int64) : Value :=
  { intValue := some val }

/-- The function `NewUintValue`. -/
def NewUintValue (val : uint64) : Value :=
  { uintValue := some val }

/-- The function `NewFloatValue`. -/
def NewFloatValue (val : float64) : Value :=
  { floatValue := some val }

/-- The function `NewDurationValue`. -/
def NewDurationValue (val : time.Duration) : Value :=
  { duration := some val }

/-- The method `Value.Duration`: the value as a `time.Duration`. -/
def Value.Duration (v : Value) : time.Duration :=
  match v.duration with
  | some d => d
  | none =>
    match v.floatValue with
    | some f => int64OfFloat64 f
    | none =>
      match v.intValue with
      | some n => n
      | none =>
        match v.uintValue with
        | some u => int64OfUint64 u
        | none => 0

/-- The method `Value.String`: the value as a `string`. -/
def Value.String (v : Value) : string :=
  match v.stringValue with
  | some s => s
  | none =>
    match v.floatValue with
    | some f => fmt.sprintfF f
    | none =>
      match v.intValue with
      | some n => fmt.sprintfD n
      | none =>
        match v.uintValue with
        | some u => fmt.sprintfU u
        | none =>
          match v.duration with
          | some d => fmt.sprintfD (Int.tdiv d time.Millisecond) ++ " ms"
          | none => ""

/-- The method `Value.Float`: the value as a `float64`. -/
def Value.Float (v : Value) : float64 :=
  match v.floatValue with
  | some f => f
  | none =>
    match v.intValue with
    | some n => float64OfInt64 n
    | none =>
      match v.uintValue with
      | some u => float64OfUint64 u
      | none =>
        match v.duration with
        | some d => float64OfInt64 d
        | none => 0

/-- The method `Value.Int`: the value as an `int64`. -/
def Value.Int (v : Value) : int64 :=
  match v.intValue with
  | some n => n
  | none =>
    match v.uintValue with
    | some u => int64OfUint64 u
    | none =>
      match v.floatValue with
      | some f => int64OfFloat64 f
      | none =>
        match v.duration with
        | some d => d
        | none => 0

/-- The number of the five pointer fields of a `Value` that are not nil. -/
def Value.populated (v : Value) : Nat :=
  (if v.stringValue.isSome then 1 else 0) + (if v.floatValue.isSome then 1 else 0) +
    (if v.intValue.isSome then 1 else 0) + (if v.uintValue.isSome then 1 else 0) +
    (if v.duration.isSome then 1 else 0)

/-- The struct `Metric`, a metric statistic. -/
structure Metric where
  MetricType : StatType
  MetricName : string
  Value : Value
  Tags : List string

/-- The function `NewMetric`; the variadic `tags` are a list. -/
def NewMetric (metricType : StatType) (metricName : string) (value : Value)
    (tags : List string) : Metric :=
  { MetricType := metricType, MetricName := metricName, Value := value, Tags := tags }

/-- The struct `Event`, an event statistic. -/
structure Event where
  Title : string
  Message : string
  Tags : List string

/-- The function `NewEvent`; the variadic `tags` are a list. -/
def NewEvent (title : string) (message : string) (tags : List string) : Event :=
  { Title := title, Message := message, Tags := tags }

/-- The struct `Statistic`: a `*Metric` and an `*Event`, each possibly nil. -/
structure Statistic where
  Metric : Option Metric
  Event : Option Event

/-- The method `Statistic.Type`: the statistic type. -/
def Statistic.Type_ (s : Statistic) : StatType :=
  match s.Event with
  | some _ => EventType
  | none =>
    match s.Metric with
    | some m => m.MetricType
    | none => "unknown"

/-- The function `NewStatistic`. -/
def NewStatistic (metric : Option Metric) (event : Option Event) : Statistic :=
  { Metric := metric, Event := event }

/-- The struct `Statistics`, a bucket of statistics.  The elements are the
`*Statistic` that `NewStatistic` returns, which are never nil.  The `sync.RWMutex`
is not part of the state: every method releases it before returning, and the
embedding is of one thread of calls. -/
structure Statistics where
  statistics : List Statistic

/-- The function `NewStatistics`: a new, empty bucket. -/
def NewStatistics : Statistics :=
  { statistics := [] }

/-- The method `Statistics.Add`: appends to the statistics; the result is the bucket
after the call. -/
def Statistics.Add (s : Statistics) (stat : Statistic) : Statistics :=
  { statistics := s.statistics ++ [stat] }

/-- The method `Statistics.Stats`: the current statistics, copied into a fresh slice;
the result pairs the returned slice with the bucket after the call. -/
def Statistics.Stats (s : Statistics) : List Statistic × Statistics :=
  let stats := ([] : List Statistic) ++ s.statistics
  (stats, s)

end statistics

namespace config

/-- A dynamic value of Go's `interface{}` as the YAML decoder produces it. -/
inductive Any where
  | null
  | bool (b : Bool)
  | int (n : Int)
  | float (f : float64)
  | str (s : String)
  | list (xs : List Any)
  | map (kvs : List (String × Any))

/-- The struct `Section`, one section of the configuration. -/
structure Section where
  Name : string
  Type_ : string
  Interval : string
  Options : List (string × Any)

end config

/-- A Go map with `string` keys held in a variable: `nil` is the zero value of the
map type, which a declaration without initialiser leaves in the variable, and
`table` is an allocated map. -/
inductive GoMap (V : Type) where
  | nil : GoMap V
  | table (entries : string → Option V) : GoMap V

/-- The two-valued index expression `v, ok := m[key]`: reading a nil map finds
nothing. -/
def GoMap.lookup {V : Type} (m : GoMap V) (key : string) : Option V :=
  match m with
  | GoMap.nil => none
  | GoMap.table entries => entries key

/-- The assignment `m[key] = v`: it panics on a nil map and otherwise stores `v`
under `key`, replacing what was there. -/
def GoMap.assign {V : Type} (m : GoMap V) (key : string) (v : V) : Except Panic (GoMap V) :=
  match m with
  | GoMap.nil => Except.error Panic.nilMapAssign
  | GoMap.table entries =>
    Except.ok (GoMap.table (fun k => if k = key then some v else entries k))

namespace reporters

/-- A registered constructor, `func(config.Section, bool) Interface`.  A constructor
may act on the world outside the program (open a socket, say), so it is a function
of a world `W` that returns the world it leaves; `I` is the type of the non-nil
interface values and `none` the nil interface. -/
abbrev Factory (W I : Type) := config.Section → Bool → W → Option I × W

/-- The package variable `registeredReporters` as the package declares it: no
initialiser, so the nil map. -/
def registeredReporters (W I : Type) : GoMap (Factory W I) := GoMap.nil

/-- The function `RegisterReporterType`, on the value of `registeredReporters`; the
result is the variable after the call, or the panic of the call. -/
def RegisterReporterType {W I : Type} (registered : GoMap (Factory W I))
    (collectorType : string) (registerFunc : Factory W I) :
    Except Panic (GoMap (Factory W I)) :=
  registered.assign collectorType registerFunc

/-- The function `CreateReporterFromConfig`, on the value of `registeredReporters`. -/
def CreateReporterFromConfig {W I : Type} (registered : GoMap (Factory W I))
    (cfg : config.Section) (debug : Bool) (w : W) : Option I × W :=
  match registered.lookup cfg.Type_ with
  | some creatorFunc => creatorFunc cfg debug w
  | none => (none, w)

/-- A call of one of the five typed emitters of `reporters.Interface`, with its
arguments. -/
inductive EmitterCall where
  | Timing (metric : string) (duration : time.Duration) (tags : List string)
  | Count (metric : string) (val : int64) (tags : List string)
  | Histogram (metric : string) (val : float64) (tags : List string)
  | Gauge (metric : string) (val : float64) (tags : List string)
  | Event (title : string) (message : string) (tags : List string)

/-- What a run of `ReportStatistics` did: the emitter calls it made, in order, and
the panic that ended it, if any. -/
structure Emitted where
  calls : List EmitterCall
  panic : Option Panic

/-- Puts one emitter call in front of what the rest of a run does. -/
def Emitted.after (c : EmitterCall) (rest : Emitted) : Emitted :=
  { calls := c :: rest.calls, panic := rest.panic }

/-- A run that panics before any emitter call. -/
def Emitted.panicked (p : Panic) : Emitted :=
  { calls := [], panic := some p }

/-- The interface `reporters.Interface` as the collectors use it: a collect cycle
calls `ReportStatistics` only.  The call is handed the pointer to the bucket of the
cycle, which it shares with the collector and with the other reporters: it can read
the bucket with `Stats()` and write to it with `Add`, the two exported methods of
`*Statistics`.  `ReportStatistics` maps the bucket as the call finds it to the
statistics the call adds to it, in order, and to the panic that ends the call, if
any. -/
structure Interface where
  Name : string
  ReportStatistics : statistics.Statistics → List statistics.Statistic × Option Panic

namespace log

/-- The struct `Log`, the reporter that only logs. -/
structure Log where
  name : string

/-- The function `New` of the log reporter. -/
def New (name : string) : Log :=
  { name := if name = "" then "log" else name }

/-- The function `NewFromConfig` of the log reporter. -/
def NewFromConfig (cfg : config.Section) (_debug : Bool) : Log :=
  New cfg.Name

/-- The loop body of `Log.ReportStatistics` run over the slice that `Stats()`
returned: the `switch` on `stat.Type()`, each case calling one emitter of `l`; a
field read through a nil `stat.Event` or `stat.Metric` panics. -/
def Log.reportLoop (l : Log) : List statistics.Statistic → Emitted
  | [] => { calls := [], panic := none }
  | stat :: rest =>
    if stat.Type_ = statistics.EventType then
      match stat.Event with
      | none => Emitted.panicked Panic.nilDereference
      | some e => Emitted.after (EmitterCall.Event e.Title e.Message e.Tags) (Log.reportLoop l rest)
    else if stat.Type_ = statistics.MetricTypeCount then
      match stat.Metric with
      | none => Emitted.panicked Panic.nilDereference
      | some m =>
        Emitted.after (EmitterCall.Count m.MetricName m.Value.Int m.Tags) (Log.reportLoop l rest)
    else if stat.Type_ = statistics.MetricTypeGauge then
      match stat.Metric with
      | none => Emitted.panicked Panic.nilDereference
      | some m =>
        Emitted.after (EmitterCall.Gauge m.MetricName m.Value.Float m.Tags) (Log.reportLoop l rest)
    else if stat.Type_ = statistics.MetricTypeTiming then
      match stat.Metric with
      | none => Emitted.panicked Panic.nilDereference
      | some m =>
        Emitted.after (EmitterCall.Timing m.MetricName m.Value.Duration m.Tags)
          (Log.reportLoop l rest)
    else if stat.Type_ = statistics.MetricTypeHistogram then
      match stat.Metric with
      | none => Emitted.panicked Panic.nilDereference
      | some m =>
        Emitted.after (EmitterCall.Histogram m.MetricName m.Value.Float m.Tags)
          (Log.reportLoop l rest)
    else Log.reportLoop l rest

/-- The method `Log.ReportStatistics`. -/
def Log.ReportStatistics (l : Log) (stats : statistics.Statistics) : Emitted :=
  Log.reportLoop l stats.Stats.1

end log

namespace datadog

/-- The struct `DataDog`, the dogstatsd reporter; the statsd client is external and
is identified here by the address it was opened on. -/
structure DataDog where
  name : string
  client : string

/-- The function `New` of the DataDog reporter. -/
def New (name : string) (client : string) : DataDog :=
  { name := if name = "" then "datadog" else name, client := client }

/-- The loop body of `DataDog.ReportStatistics` run over the slice that `Stats()`
returned: the `switch` on `stat.Type()`, each case calling one emitter of `d`; a
field read through a nil `stat.Event` or `stat.Metric` panics. -/
def DataDog.reportLoop (d : DataDog) : List statistics.Statistic → Emitted
  | [] => { calls := [], panic := none }
  | stat :: rest =>
    if stat.Type_ = statistics.EventType then
      match stat.Event with
      | none => Emitted.panicked Panic.nilDereference
      | some e =>
        Emitted.after (EmitterCall.Event e.Title e.Message e.Tags) (DataDog.reportLoop d rest)
    else if stat.Type_ = statistics.MetricTypeCount then
      match stat.Metric with
      | none => Emitted.panicked Panic.nilDereference
      | some m =>
        Emitted.after (EmitterCall.Count m.MetricName m.Value.Int m.Tags)
          (DataDog.reportLoop d rest)
    else if stat.Type_ = statistics.MetricTypeGauge then
      match stat.Metric with
      | none => Emitted.panicked Panic.nilDereference
      | some m =>
        Emitted.after (EmitterCall.Gauge m.MetricName m.Value.Float m.Tags)
          (DataDog.reportLoop d rest)
    else if stat.Type_ = statistics.MetricTypeTiming then
      match stat.Metric with
      | none => Emitted.panicked Panic.nilDereference
      | some m =>
        Emitted.after (EmitterCall.Timing m.MetricName m.Value.Duration m.Tags)
          (DataDog.reportLoop d rest)
    else if stat.Type_ = statistics.MetricTypeHistogram then
      match stat.Metric with
      | none => Emitted.panicked Panic.nilDereference
      | some m =>
        Emitted.after (EmitterCall.Histogram m.MetricName m.Value.Float m.Tags)
          (DataDog.reportLoop d rest)
    else DataDog.reportLoop d rest

/-- The method `DataDog.ReportStatistics`. -/
def DataDog.ReportStatistics (d : DataDog) (stats : statistics.Statistics) : Emitted :=
  DataDog.reportLoop d stats.Stats.1

end datadog

end reporters

namespace collectors

/-- The constant `metricPrefix`. -/
def metricPrefix : string := "isp_monitor."

/-- The constant `collectFailureSuffix`. -/
def collectFailureSuffix : string := "collect_failure"

/-- A registered constructor, `func(config.Section, bool) Interface`, as a function
of the world `W` it may act on; `I` is the type of the non-nil interface values. -/
abbrev Factory (W I : Type) := config.Section → Bool → W → Option I × W

/-- The package variable `registeredCollectors` as the package declares it: no
initialiser, so the nil map. -/
def registeredCollectors (W I : Type) : GoMap (Factory W I) := GoMap.nil

/-- The function `RegisterCollectorType`, on the value of `registeredCollectors`; the
result is the variable after the call, or the panic of the call. -/
def RegisterCollectorType {W I : Type} (registered : GoMap (Factory W I))
    (collectorType : string) (registerFunc : Factory W I) :
    Except Panic (GoMap (Factory W I)) :=
  registered.assign collectorType registerFunc

/-- The function `CreateCollectorFromConfig`, on the value of `registeredCollectors`. -/
def CreateCollectorFromConfig {W I : Type} (registered : GoMap (Factory W I))
    (cfg : config.Section) (debug : Bool) (w : W) : Option I × W :=
  match registered.lookup cfg.Type_ with
  | some creatorFunc => creatorFunc cfg debug w
  | none => (none, w)

/-- What the fan-out loop of a collect cycle did: the `ReportStatistics` calls it
made, in order, each as the key of the reporter in the map and the bucket as it was
when the call was made; the bucket as the loop left it; and the panic that ended the
loop, if any. -/
structure FanOut where
  calls : List (string × statistics.Statistics)
  after : statistics.Statistics
  panic : Option Panic

/-- The loop `for _, reporter := range reporters { reporter.ReportStatistics(stats) }`
of both collect closures.  The map is given as its entries in the order in which
this `range` visits them (Go leaves the order open; the keys are distinct).  Every
call is handed the same pointer `stats`, so a call finds in the bucket what the calls
before it have added.  A panic of a call is not recovered anywhere, so it ends the
loop. -/
def fanOut : List (string × reporters.Interface) → statistics.Statistics → FanOut
  | [], stats => { calls := [], after := stats, panic := none }
  | (key, reporter) :: rest, stats =>
    let result := reporter.ReportStatistics stats
    let written := result.1.foldl statistics.Statistics.Add stats
    match result.2 with
    | some p => { calls := [(key, stats)], after := written, panic := some p }
    | none =>
      let later := fanOut rest written
      { calls := (key, stats) :: later.calls, after := later.after, panic := later.panic }

/-- What one run of a collect closure did: the warning it logged, the bucket after the
`if err != nil` block, and the fan-out. -/
structure Cycle where
  warned : Option string
  stats : statistics.Statistics
  fanOut : FanOut

/-- The struct `Pinger`, a simple ping test. -/
structure Pinger where
  name : string
  address : string
  count : Int
  timeout : time.Duration
  collectInterval : time.Duration
  pingInterval : time.Duration
  debug : Bool
  packetSize : Int
  privileged : Bool

/-- The closure `collect` of `Pinger.Run`, given what `p.Collect()` returned: the
bucket (never nil: `Collect` allocates it first) and the error. -/
def Pinger.collect (p : Pinger) (reporters : List (string × reporters.Interface))
    (collected : statistics.Statistics × error) : Cycle :=
  let tags : List string := ["address:" ++ p.address, "name:" ++ p.name]
  let (stats, err) := collected
  match err with
  | some _ =>
    let stats := stats.Add
      (statistics.NewStatistic
        (some (statistics.NewMetric statistics.MetricTypeCount
          (metricPrefix ++ "pinger." ++ collectFailureSuffix)
          (statistics.NewIntValue 1)
          tags))
        none)
    { warned := some "failed to execute ping", stats := stats, fanOut := fanOut reporters stats }
  | none =>
    { warned := none, stats := stats, fanOut := fanOut reporters stats }

/-- The external speedtest client, identified by the options it was built with. -/
structure SpeedtestClient where
  Quiet : Bool
  Timeout : time.Duration
  Secure : Bool

/-- The struct `SpeedTest`, the speedtest collector. -/
structure SpeedTest where
  client : SpeedtestClient
  interval : time.Duration

/-- The closure `collect` of `SpeedTest.Run`, given what `c.Collect()` returned: the
bucket (never nil: `Collect` allocates it first) and the error. -/
def SpeedTest.collect (_c : SpeedTest) (reporters : List (string × reporters.Interface))
    (collected : statistics.Statistics × error) : Cycle :=
  let (stats, err) := collected
  match err with
  | some _ =>
    let stats := stats.Add
      (statistics.NewStatistic
        (some (statistics.NewMetric statistics.MetricTypeCount
          (metricPrefix ++ "speedtest." ++ collectFailureSuffix)
          (statistics.NewIntValue 1)
          []))
        none)
    { warned := some "failed to execute speedtest", stats := stats,
      fanOut := fanOut reporters stats }
  | none =>
    { warned := none, stats := stats, fanOut := fanOut reporters stats }

/-- The struct `PingerOptions`, the options specific to the pinger; a `json.Number`
is the string of the number. -/
structure PingerOptions where
  Address : string
  Count : string
  Timeout : string
  Interval : string
  PacketSize : string

/-- The struct `SpeedTestOptions`, the options specific to the speedtest. -/
structure SpeedTestOptions where
  Secure : Bool
  Timeout : string

/-- The functions of Go's standard library that the constructors of the collectors
call and that are not part of the repository.  `ParseDuration` is
`time.ParseDuration`; `Int64` is the method `json.Number.Int64`; `pingerOptions` and
`speedTestOptions` are what `json.Marshal` of the section's options followed by
`json.Unmarshal` into a zero `PingerOptions` (respectively `SpeedTestOptions`)
leaves in it, errors of either call being ignored by the code. -/
structure Library where
  ParseDuration : string → time.Duration × error
  Int64 : string → int64 × error
  pingerOptions : List (string × config.Any) → PingerOptions
  speedTestOptions : List (string × config.Any) → SpeedTestOptions

/-- The function `durationFromString`. -/
def durationFromString (lib : Library) (s : string) (defaultDuration : time.Duration) :
    time.Duration :=
  let (d, err) := lib.ParseDuration s
  if err = none ∧ d > 0 then d else defaultDuration

/-- The method `PingerOptions.CountInt`: the count as an `int`. -/
def PingerOptions.CountInt (lib : Library) (o : PingerOptions) : Int :=
  let (v, err) := lib.Int64 o.Count
  match err with
  | some _ => 0
  | none => v

/-- The method `PingerOptions.PacketSizeInt`: the packet size as an `int`. -/
def PingerOptions.PacketSizeInt (lib : Library) (o : PingerOptions) : Int :=
  let (v, err) := lib.Int64 o.PacketSize
  match err with
  | some _ => 0
  | none => v

/-- The function `NewPinger`. -/
def NewPinger (name : string) (address : string) (count : Int) (timeout : time.Duration)
    (collectInterval : time.Duration) (pingInterval : time.Duration) (debug : Bool)
    (packetSize : Int) : Pinger :=
  { name := name, address := address, count := count, collectInterval := collectInterval,
    pingInterval := pingInterval, timeout := timeout, debug := debug,
    packetSize := packetSize, privileged := false }

/-- The function `NewPingerFromConfig`; `none` is the nil interface it returns for a
section without address. -/
def NewPingerFromConfig (lib : Library) (cfg : config.Section) (debug : Bool) :
    Option Pinger :=
  let opts := lib.pingerOptions cfg.Options
  if opts.Address ≠ "" then
    let opts := if opts.CountInt lib ≤ 0 then { opts with Count := "5" } else opts
    let opts := if opts.PacketSizeInt lib ≤ 0 then { opts with PacketSize := "0" } else opts
    let timeout := durationFromString lib opts.Timeout (time.Second * 5)
    let interval := durationFromString lib cfg.Interval (time.Second * 30)
    let pingInterval := durationFromString lib opts.Interval (time.Second * 30)
    some (NewPinger cfg.Name opts.Address (opts.CountInt lib) timeout interval pingInterval
      debug (opts.PacketSizeInt lib))
  else none

/-- The function `NewSpeedTest`. -/
def NewSpeedTest (secure : Bool) (timeout : time.Duration) (interval : time.Duration)
    (debug : Bool) : SpeedTest :=
  { client := { Quiet := !debug, Timeout := timeout, Secure := secure },
    interval := interval }

/-- The function `NewSpeedTestFromConfig`; it never returns the nil interface. -/
def NewSpeedTestFromConfig (lib : Library) (cfg : config.Section) (debug : Bool) :
    Option SpeedTest :=
  let opts := lib.speedTestOptions cfg.Options
  let timeout := durationFromString lib opts.Timeout (time.Second * 5)
  let interval := durationFromString lib cfg.Interval (time.Second * 30)
  some (NewSpeedTest opts.Secure timeout interval debug)

/-- The values of type `collectors.Interface` that the package builds: a `*Pinger` or
a `*SpeedTest`. -/
inductive Interface where
  | pinger (p : Pinger)
  | speedTest (c : SpeedTest)

/-- The constructor `NewPingerFromConfig` as the value registered by `init`: it does
not act on the world. -/
def pingerFactory (lib : Library) (W : Type) : Factory W Interface :=
  fun cfg debug w => ((NewPingerFromConfig lib cfg debug).map Interface.pinger, w)

/-- The constructor `NewSpeedTestFromConfig` as the value registered by `init`: it
does not act on the world. -/
def speedTestFactory (lib : Library) (W : Type) : Factory W Interface :=
  fun cfg debug w => ((NewSpeedTestFromConfig lib cfg debug).map Interface.speedTest, w)

/-- The function `init` of pinger.go, on the value of `registeredCollectors`. -/
def initPinger (lib : Library) (W : Type) (registered : GoMap (Factory W Interface)) :
    Except Panic (GoMap (Factory W Interface)) :=
  RegisterCollectorType registered "ping" (pingerFactory lib W)

/-- The function `init` of speedtest.go, on the value of `registeredCollectors`. -/
def initSpeedTest (lib : Library) (W : Type) (registered : GoMap (Factory W Interface)) :
    Except Panic (GoMap (Factory W Interface)) :=
  RegisterCollectorType registered "speedtest" (speedTestFactory lib W)

/-- The initialisation of package `collectors` at process start: the package
variable gets its declared value, then the `init` functions run in the order of the
file names, pinger.go before speedtest.go; a panic in one ends the process. -/
def packageInit (lib : Library) (W : Type) : Except Panic (GoMap (Factory W Interface)) :=
  (initPinger lib W (registeredCollectors W Interface)).bind (initSpeedTest lib W)

/-- What the goroutine started by `Run` does, in order. -/
inductive SchedEvent where
  | newTicker (d : time.Duration)
  | newTickerPanicked (p : Panic)
  | collectCalled (n : Nat)
  | collectReturned (n : Nat) (cyc : Cycle)
  | collectPanicked (n : Nat) (cyc : Cycle) (p : Panic)
  | tick

/-- The call `collect()` number `n` of the goroutine and what follows it: when its
fan-out panics the goroutine ends, otherwise `andThen` goes on. -/
def runCollect (collect : Nat → Cycle) (n : Nat) (andThen : List SchedEvent) :
    List SchedEvent :=
  match (collect n).fanOut.panic with
  | some p => [SchedEvent.collectCalled n, SchedEvent.collectPanicked n (collect n) p]
  | none => SchedEvent.collectCalled n :: SchedEvent.collectReturned n (collect n) :: andThen

/-- The loop `for { select { case <-ticker.C: collect() } }` of the goroutine, for
the `ticks` values that the ticker still delivers; `n` numbers the next call of
`collect`.  With no tick left the goroutine waits in the `select`. -/
def tickLoop (collect : Nat → Cycle) : (ticks : Nat) → (n : Nat) → List SchedEvent
  | 0, _ => []
  | ticks + 1, n => SchedEvent.tick :: runCollect collect n (tickLoop collect ticks (n + 1))

/-- The goroutine of `Pinger.Run` and of `SpeedTest.Run`:
`ticker := time.NewTicker(interval); collect(); for { select { case <-ticker.C: collect() } }`,
run until the ticker has delivered `ticks` values.  `time.NewTicker` panics on an
interval that is not positive. -/
def schedule (interval : time.Duration) (collect : Nat → Cycle) (ticks : Nat) :
    List SchedEvent :=
  if interval ≤ 0 then
    [SchedEvent.newTickerPanicked (Panic.other "non-positive interval for NewTicker")]
  else
    SchedEvent.newTicker interval :: runCollect collect 0 (tickLoop collect ticks 1)

/-- The method `Pinger.Run`: what its goroutine does until the ticker has delivered
`ticks` values.  `reporters n` is the reporter map in the order in which the `range`
of call `n` of `collect` visits it, and `collected n` what `p.Collect()` returns in
that call. -/
def Pinger.Run (p : Pinger) (reporters : Nat → List (string × reporters.Interface))
    (collected : Nat → statistics.Statistics × error) (ticks : Nat) : List SchedEvent :=
  schedule p.collectInterval (fun n => Pinger.collect p (reporters n) (collected n)) ticks

/-- The method `SpeedTest.Run`: what its goroutine does until the ticker has
delivered `ticks` values, with `reporters` and `collected` as for `Pinger.Run`. -/
def SpeedTest.Run (c : SpeedTest) (reporters : Nat → List (string × reporters.Interface))
    (collected : Nat → statistics.Statistics × error) (ticks : Nat) : List SchedEvent :=
  schedule c.interval (fun n => SpeedTest.collect c (reporters n) (collected n)) ticks

/-- The number of calls of `collect` in a run of the goroutine. -/
def cyclesStarted (events : List SchedEvent) : Nat :=
  events.countP (fun e => match e with
    | SchedEvent.collectCalled _ => true
    | _ => false)

/-- The number of values received from the ticker in a run of the goroutine. -/
def ticksConsumed (events : List SchedEvent) : Nat :=
  events.countP (fun e => match e with
    | SchedEvent.tick => true
    | _ => false)

/-- Complete cycles `n`, `n + 1`, ..., `n + ticks - 1`, each started by one tick. -/
def tickCycles (collect : Nat → Cycle) (n : Nat) (ticks : Nat) : List SchedEvent :=
  (List.range ticks).flatMap (fun j =>
    [SchedEvent.tick, SchedEvent.collectCalled (n + j),
      SchedEvent.collectReturned (n + j) (collect (n + j))])

/-- The cadence as the specification words it: the ticker is created, one cycle runs
at once, and then every tick is followed by one cycle, cycle `n + 1` after cycle `n`
has returned. -/
def cadence (interval : time.Duration) (collect : Nat → Cycle) (ticks : Nat) :
    List SchedEvent :=
  SchedEvent.newTicker interval ::
    SchedEvent.collectCalled 0 :: SchedEvent.collectReturned 0 (collect 0) ::
    tickCycles collect 1 ticks

end collectors

namespace reporters

/-- The constructor `NewFromConfig` of the log reporter as the value registered by
`init`: it does not act on the world and never returns the nil interface. -/
def log.factory (W : Type) : Factory W log.Log :=
  fun cfg debug w => (some (log.NewFromConfig cfg debug), w)

/-- The function `init` of reporters/log/log.go, on the value of
`registeredReporters`. -/
def log.initLog (W : Type) (registered : GoMap (Factory W log.Log)) :
    Except Panic (GoMap (Factory W log.Log)) :=
  RegisterReporterType registered "log" (log.factory W)

/-- The log reporter as a value of `reporters.Interface`: its `ReportStatistics` adds
nothing to the bucket. -/
def log.Log.asInterface (l : log.Log) : Interface :=
  { Name := l.name,
    ReportStatistics := fun stats => ([], (log.Log.ReportStatistics l stats).panic) }

/-- The DataDog reporter as a value of `reporters.Interface`: its `ReportStatistics`
adds nothing to the bucket. -/
def datadog.DataDog.asInterface (d : datadog.DataDog) : Interface :=
  { Name := d.name,
    ReportStatistics := fun stats => ([], (datadog.DataDog.ReportStatistics d stats).panic) }

/-- The demultiplexing as the specification words it: a statistic goes to the typed
emitter that matches its discriminant, `Event(title, message, tags)` for event,
`Count(name, Value.Int(), tags)` for count, `Gauge(name, Value.Float(), tags)` for
gauge, `Timing(name, Value.Duration(), tags)` for timing,
`Histogram(name, Value.Float(), tags)` for histogram, and to none for any other
discriminant. -/
def demultiplex (stat : statistics.Statistic) : Option EmitterCall :=
  if stat.Type_ = "event" then
    stat.Event.map (fun e => EmitterCall.Event e.Title e.Message e.Tags)
  else if stat.Type_ = "count" then
    stat.Metric.map (fun m => EmitterCall.Count m.MetricName m.Value.Int m.Tags)
  else if stat.Type_ = "gauge" then
    stat.Metric.map (fun m => EmitterCall.Gauge m.MetricName m.Value.Float m.Tags)
  else if stat.Type_ = "timing" then
    stat.Metric.map (fun m => EmitterCall.Timing m.MetricName m.Value.Duration m.Tags)
  else if stat.Type_ = "histogram" then
    stat.Metric.map (fun m => EmitterCall.Histogram m.MetricName m.Value.Float m.Tags)
  else none

end reporters

/-! ## Concrete inputs -/

namespace examples

/-- A reporter whose `ReportStatistics` returns on every bucket and adds nothing. -/
def returning (name : string) : reporters.Interface :=
  { Name := name, ReportStatistics := fun _ => ([], none) }

/-- A reporter whose `ReportStatistics` panics on every bucket and adds nothing. -/
def panicking (name : string) : reporters.Interface :=
  { Name := name, ReportStatistics := fun _ => ([], some (Panic.other "report failed")) }

/-- A reporter whose `ReportStatistics` calls `Add` on the bucket once, with a count
of the statistics it found, and returns. -/
def adding (name : string) : reporters.Interface :=
  { Name := name,
    ReportStatistics := fun stats =>
      ([statistics.NewStatistic
          (some (statistics.NewMetric statistics.MetricTypeCount "audit.reported"
            (statistics.NewIntValue stats.Stats.1.length) []))
          none], none) }

/-- A pinger as `NewPinger` builds it. -/
def pinger : collectors.Pinger :=
  { name := "home", address := "192.0.2.1", count := 5, timeout := 5 * time.Second,
    collectInterval := 30 * time.Second, pingInterval := 30 * time.Second, debug := false,
    packetSize := 0, privileged := false }

/-- A speedtest collector as `NewSpeedTest` builds it. -/
def speedTest : collectors.SpeedTest :=
  { client := { Quiet := true, Timeout := 5 * time.Second, Secure := false },
    interval := 30 * time.Second }

/-- A reporter map of three entries, in an order of iteration in which the second
reporter visited is the one that panics. -/
def threeReporters : List (string × reporters.Interface) :=
  [("first", returning "first"), ("second", panicking "second"), ("third", returning "third")]

/-- A reporter map of two entries, neither of which panics. -/
def twoReporters : List (string × reporters.Interface) :=
  [("log", returning "log"), ("datadog", returning "datadog")]

/-- The reporter map of the two reporters of the repository, under their names. -/
def logAndDataDog : List (string × reporters.Interface) :=
  [("log", (reporters.log.New "log").asInterface),
    ("datadog", (reporters.datadog.New "datadog" "127.0.0.1:8125").asInterface)]

/-- A reporter map in which the reporter visited first adds to the bucket and the log
reporter is visited after it. -/
def writerThenLog : List (string × reporters.Interface) :=
  [("audit", adding "audit"), ("log", (reporters.log.New "log").asInterface)]

/-- A pinger that `NewPinger` builds with a collect interval of zero. -/
def zeroIntervalPinger : collectors.Pinger :=
  collectors.NewPinger "home" "192.0.2.1" 5 (5 * time.Second) 0 (30 * time.Second) false 0

/-- A speedtest collector that `NewSpeedTest` builds with an interval of zero. -/
def zeroIntervalSpeedTest : collectors.SpeedTest :=
  collectors.NewSpeedTest false (5 * time.Second) 0 false

/-- A bucket of one timing metric, as a collector adds it. -/
def oneTiming : statistics.Statistics :=
  statistics.NewStatistics.Add
    (statistics.NewStatistic
      (some (statistics.NewMetric statistics.MetricTypeTiming "isp_monitor.pinger.avg_rtt"
        (statistics.NewDurationValue (12 * time.Millisecond)) ["name:home"]))
      none)

/-- A bucket whose one statistic is built by `NewStatistic` from a metric of type
`EventType` and no event. -/
def eventTypedMetric : statistics.Statistics :=
  statistics.NewStatistics.Add
    (statistics.NewStatistic
      (some (statistics.NewMetric statistics.EventType "isp_monitor.outage"
        (statistics.NewIntValue 1) []))
      none)

/-- A stand-in for the library: `ParseDuration` and `Int64` agree with Go on the few
strings listed and report an error on every other string; the options are read from
the entries "address" and "timeout" when they are strings. -/
def library : collectors.Library :=
  { ParseDuration := fun s =>
      if s = "10s" then (10 * time.Second, none)
      else if s = "0s" then (0, none)
      else if s = "-5s" then (-5 * time.Second, none)
      else (0, some ("time: invalid duration " ++ s)),
    Int64 := fun s =>
      if s = "5" then (5, none)
      else if s = "0" then (0, none)
      else if s = "3" then (3, none)
      else (0, some "strconv.ParseInt: parsing: invalid syntax"),
    pingerOptions := fun options =>
      { Address := match options.lookup "address" with
          | some (config.Any.str a) => a
          | _ => "",
        Count := "", Timeout := "", Interval := "", PacketSize := "" },
    speedTestOptions := fun _ => { Secure := false, Timeout := "" } }

/-- A section for a pinger with the given interval string. -/
def pingSection (interval : string) : config.Section :=
  { Name := "home", Type_ := "ping", Interval := interval,
    Options := [("address", config.Any.str "192.0.2.1")] }

/-- A section for a speedtest with the given interval string. -/
def speedtestSection (interval : string) : config.Section :=
  { Name := "speed", Type_ := "speedtest", Interval := interval, Options := [] }

end examples

/-! ## The statistics model -/

namespace statistics

/-- Adding a sequence of statistics one after the other appends the sequence to the
bucket. -/
theorem Statistics.foldl_Add (as : List Statistic) (s : Statistics) :
    (as.foldl Statistics.Add s).statistics = s.statistics ++ as := by
  induction as generalizing s with
  | nil => simp
  | cons a rest ih => simp [ih, Statistics.Add]

/-- `Stats()` returns the elements of the bucket in their order. -/
theorem Statistics.Stats_fst (s : Statistics) : s.Stats.1 = s.statistics := by
  simp [Statistics.Stats]

/-- `Stats()` after `Add(stat)` is `Stats()` before it with `stat` at the end. -/
theorem Statistics.Stats_Add (s : Statistics) (stat : Statistic) :
    (s.Add stat).Stats.1 = s.Stats.1 ++ [stat] := by
  simp [Statistics.Stats, Statistics.Add]

/-- C2 (bucket ordering): after `Add(a1)`, ..., `Add(aN)` in that order on the bucket
that `NewStatistics()` returns, `Stats()` returns exactly `[a1, ..., aN]`, so N
elements; `Stats()` of the fresh bucket is empty; and `Stats()` leaves every bucket as
it was. -/
theorem C2_bucket_ordering (as : List Statistic) :
    (as.foldl Statistics.Add NewStatistics).Stats.1 = as ∧
      (as.foldl Statistics.Add NewStatistics).Stats.1.length = as.length ∧
      NewStatistics.Stats.1 = [] ∧
      ∀ s : Statistics, s.Stats.2 = s ∧ s.Stats.2.Stats.1 = s.Stats.1 := by
  have h : (as.foldl Statistics.Add NewStatistics).Stats.1 = as := by
    rw [Statistics.Stats_fst, Statistics.foldl_Add]
    simp [NewStatistics]
  refine ⟨h, by rw [h], rfl, fun s => ⟨rfl, rfl⟩⟩

/-- C7, as the claim states it, fails: a statistic built with both a metric (of type
count) and an event has `Type()` equal to "event", not "unknown". -/
theorem C7_both_populated_is_event :
    (NewStatistic (some (NewMetric MetricTypeCount "m" (NewIntValue 1) []))
        (some (NewEvent "t" "msg" []))).Type_ = "event" ∧
      (NewStatistic (some (NewMetric MetricTypeCount "m" (NewIntValue 1) []))
        (some (NewEvent "t" "msg" []))).Type_ ≠ "unknown" := by
  constructor
  · rfl
  · decide

/-- C7, amended (statistic discriminant): for a statistic built by
`NewStatistic(metric, event)`, `Type()` is "event" whenever the event is populated,
whether or not the metric is populated too; it is the metric's `MetricType` when only
the metric is populated; and it is "unknown" when neither is populated. -/
theorem C7_Type_discriminant :
    (∀ (metric : Option Metric) (e : Event),
        (NewStatistic metric (some e)).Type_ = EventType) ∧
      (∀ m : Metric, (NewStatistic (some m) none).Type_ = m.MetricType) ∧
      (NewStatistic none none).Type_ = "unknown" ∧
      EventType = "event" := by
  refine ⟨fun _ _ => rfl, fun _ => rfl, rfl, rfl⟩

/-- C8, as the claim states it, fails: a duration of five milliseconds is rendered
"5 ms", with a space between the digits and the suffix, not "5ms". -/
theorem C8_space_before_suffix :
    (NewDurationValue (5 * time.Millisecond)).String = "5 ms" ∧
      (NewDurationValue (5 * time.Millisecond)).String ≠
        fmt.sprintfD (Int.tdiv (5 * time.Millisecond) time.Millisecond) ++ "ms" := by
  constructor
  · rfl
  · decide

/-- C8, amended (duration formatting): for every duration `d`,
`NewDurationValue(d).String()` is the decimal rendering of `d / 1ms` (integer
division truncating toward zero, one millisecond being 1000000 nanoseconds), followed
by one space and the suffix "ms". -/
theorem C8_duration_String (d : time.Duration) :
    (NewDurationValue d).String = toString (Int.tdiv d 1000000) ++ " ms" ∧
      (NewDurationValue 1999999).String = "1 ms" ∧
      (NewDurationValue (-1999999)).String = "-1 ms" ∧
      (NewDurationValue 0).String = "0 ms" := by
  refine ⟨rfl, rfl, rfl, rfl⟩

/-- C9 (exact accessors): each constructor followed by the accessor of its own
variant returns the value it was given, for every string, integer, float and
duration; and each of the five constructors yields a `Value` with exactly one of its
five fields populated. -/
theorem C9_exact_accessors (s : string) (n : int64) (u : uint64) (f : float64)
    (d : time.Duration) :
    (NewStringValue s).String = s ∧ (NewIntValue n).Int = n ∧
      (NewFloatValue f).Float = f ∧ (NewDurationValue d).Duration = d ∧
      (NewStringValue s).populated = 1 ∧ (NewIntValue n).populated = 1 ∧
      (NewUintValue u).populated = 1 ∧ (NewFloatValue f).populated = 1 ∧
      (NewDurationValue d).populated = 1 := by
  refine ⟨rfl, rfl, rfl, rfl, rfl, rfl, rfl, rfl, rfl⟩

/-- C10 (unsupported coercions degrade to zero): for every string `s`, also one that
spells a number, `NewStringValue(s)` reads as `Int() = 0`, `Float() = 0` and
`Duration() = 0`.  The four accessors are total functions of the `Value`: every
pointer they read is checked against nil first, so each of them returns a value for
the result of each of the five constructors. -/
theorem C10_string_coercions_zero (s : string) :
    (NewStringValue s).Int = 0 ∧ (NewStringValue s).Float = 0 ∧
      (NewStringValue s).Duration = 0 ∧
      (NewStringValue "42").Int = 0 ∧ (NewStringValue "42").Float = 0 ∧
      (NewStringValue "42").Duration = 0 := by
  refine ⟨rfl, rfl, rfl, rfl, rfl, rfl⟩

end statistics

/-! ## The plugin registries -/

/-- Reading back the key that was just assigned in an allocated map finds the value. -/
theorem GoMap.lookup_assign_table {V : Type} (entries : string → Option V) (key : string)
    (v : V) :
    ∃ m, (GoMap.table entries).assign key v = Except.ok m ∧ m.lookup key = some v ∧
      ∀ k, k ≠ key → m.lookup k = entries k := by
  refine ⟨_, rfl, ?_, ?_⟩
  · simp [GoMap.lookup]
  · intro k hk
    simp [GoMap.lookup, hk]

/-- On an allocated collector registry the round trip holds: `Register(x, f)` returns,
and `Create(s, d)` for a section of type `x` then is one run of `f` on `(s, d)`: it
leaves the world as `f` leaves it and returns what `f` returns. -/
theorem collectors.collector_round_trip_allocated {W I : Type}
    (entries : string → Option (collectors.Factory W I)) (x : string)
    (f : collectors.Factory W I) (s : config.Section) (d : Bool) (w : W)
    (hs : s.Type_ = x) :
    ∃ registered, collectors.RegisterCollectorType (GoMap.table entries) x f
        = Except.ok registered ∧
      collectors.CreateCollectorFromConfig registered s d w = f s d w := by
  refine ⟨_, rfl, ?_⟩
  simp [collectors.CreateCollectorFromConfig, GoMap.lookup, hs]

/-- On an allocated reporter registry the round trip holds, as for the collectors. -/
theorem reporters.reporter_round_trip_allocated {W I : Type}
    (entries : string → Option (reporters.Factory W I)) (x : string)
    (f : reporters.Factory W I) (s : config.Section) (d : Bool) (w : W)
    (hs : s.Type_ = x) :
    ∃ registered, reporters.RegisterReporterType (GoMap.table entries) x f
        = Except.ok registered ∧
      reporters.CreateReporterFromConfig registered s d w = f s d w := by
  refine ⟨_, rfl, ?_⟩
  simp [reporters.CreateReporterFromConfig, GoMap.lookup, hs]

/-- A section whose type is not in the registry (nil or allocated) creates nothing: the
result is absent and the world is untouched, so no constructor ran. -/
theorem collectors.create_collector_unregistered {W I : Type}
    (registered : GoMap (collectors.Factory W I)) (s : config.Section) (d : Bool) (w : W)
    (hs : registered.lookup s.Type_ = none) :
    collectors.CreateCollectorFromConfig registered s d w = (none, w) := by
  simp [collectors.CreateCollectorFromConfig, hs]

/-- A section whose type is not in the reporter registry creates nothing, as for the
collectors. -/
theorem reporters.create_reporter_unregistered {W I : Type}
    (registered : GoMap (reporters.Factory W I)) (s : config.Section) (d : Bool) (w : W)
    (hs : registered.lookup s.Type_ = none) :
    reporters.CreateReporterFromConfig registered s d w = (none, w) := by
  simp [reporters.CreateReporterFromConfig, hs]

/-- C1 (registry round trip) at the registry state that the packages declare: for
every type name `x`, constructor `f`, section `s` and debug flag `d`,
`Register(x, f)` on the nil map `registeredCollectors` (respectively
`registeredReporters`) panics with an assignment to an entry in a nil map, so the
sequence `Register(x, f); Create(s, d)` ends in that panic instead of running `f` once
and returning its result. -/
theorem C1_register_then_create_panics {W I : Type} (x : string) (s : config.Section)
    (d : Bool) (w : W) :
    (∀ f : collectors.Factory W I,
        (collectors.RegisterCollectorType (collectors.registeredCollectors W I) x f).map
            (fun registered => collectors.CreateCollectorFromConfig registered s d w)
          = Except.error Panic.nilMapAssign) ∧
      (∀ f : reporters.Factory W I,
        (reporters.RegisterReporterType (reporters.registeredReporters W I) x f).map
            (fun registered => reporters.CreateReporterFromConfig registered s d w)
          = Except.error Panic.nilMapAssign) := by
  constructor <;> intro f <;> rfl

/-! ## The collect cycle -/

namespace collectors

/-- What a reporter adds ends up after what the bucket held. -/
theorem written_Stats (added : List statistics.Statistic) (b : statistics.Statistics) :
    (added.foldl statistics.Statistics.Add b).Stats.1 = b.Stats.1 ++ added := by
  rw [statistics.Statistics.Stats_fst, statistics.Statistics.foldl_Add,
    statistics.Statistics.Stats_fst]

/-- A reporter that adds nothing leaves the bucket as it found it. -/
theorem written_nil (b : statistics.Statistics) :
    (([] : List statistics.Statistic).foldl statistics.Statistics.Add b) = b := rfl

/-- The first call of the fan-out loop is given the bucket the loop was started
with. -/
theorem fanOut_head (rs : List (string × reporters.Interface)) (b : statistics.Statistics)
    (call : string × statistics.Statistics) (hcall : (fanOut rs b).calls.head? = some call) :
    call.2 = b := by
  cases rs with
  | nil => simp [fanOut] at hcall
  | cons kr rest =>
    obtain ⟨key, reporter⟩ := kr
    cases h : (reporter.ReportStatistics b).2 with
    | some p =>
      simp [fanOut, h] at hcall
      rw [← hcall]
    | none =>
      simp [fanOut, h] at hcall
      rw [← hcall]

/-- When the fan-out loop ends without panic it has called every entry of the map
once, in the order of the iteration. -/
theorem fanOut_keys (rs : List (string × reporters.Interface)) (b : statistics.Statistics)
    (hok : (fanOut rs b).panic = none) :
    (fanOut rs b).calls.map Prod.fst = rs.map Prod.fst := by
  induction rs generalizing b with
  | nil => simp [fanOut]
  | cons kr rest ih =>
    obtain ⟨key, reporter⟩ := kr
    cases h : (reporter.ReportStatistics b).2 with
    | some p => simp [fanOut, h] at hok
    | none =>
      simp only [fanOut, h] at hok ⊢
      simp [ih _ hok]

/-- Every call of the fan-out loop finds in the bucket what the bucket held when the
loop started, in the same order, followed by what the calls before it added. -/
theorem fanOut_calls_extend (rs : List (string × reporters.Interface))
    (b : statistics.Statistics) :
    ∀ call ∈ (fanOut rs b).calls, ∃ added, call.2.Stats.1 = b.Stats.1 ++ added := by
  induction rs generalizing b with
  | nil => simp [fanOut]
  | cons kr rest ih =>
    obtain ⟨key, reporter⟩ := kr
    intro call hcall
    cases h : (reporter.ReportStatistics b).2 with
    | some p =>
      simp [fanOut, h] at hcall
      exact ⟨[], by simp [hcall]⟩
    | none =>
      simp only [fanOut, h, List.mem_cons] at hcall
      rcases hcall with hc | hc
      · exact ⟨[], by simp [hc]⟩
      · obtain ⟨added, hadded⟩ := ih _ call hc
        exact ⟨(reporter.ReportStatistics b).1 ++ added, by
          rw [hadded, written_Stats, List.append_assoc]⟩

/-- When no reporter of the map writes to the bucket, every call of the fan-out loop
is given the bucket the loop was started with, unchanged, and the loop leaves it
unchanged. -/
theorem fanOut_readers (rs : List (string × reporters.Interface)) (b : statistics.Statistics)
    (hread : ∀ kr ∈ rs, ∀ s, (kr.2.ReportStatistics s).1 = []) :
    (∀ call ∈ (fanOut rs b).calls, call.2 = b) ∧ (fanOut rs b).after = b := by
  induction rs generalizing b with
  | nil => simp [fanOut]
  | cons kr rest ih =>
    obtain ⟨key, reporter⟩ := kr
    have h1 : (reporter.ReportStatistics b).1 = [] := hread (key, reporter) (by simp) b
    have h2 := ih b (fun kr hkr => hread kr (List.mem_cons_of_mem _ hkr))
    cases h : (reporter.ReportStatistics b).2 with
    | some p => simp [fanOut, h, h1]
    | none =>
      simp only [fanOut, h, h1, written_nil, List.mem_cons]
      refine ⟨?_, h2.2⟩
      intro call hcall
      rcases hcall with hc | hc
      · rw [hc]
      · exact h2.1 call hc

/-- Between two calls the fan-out loop does nothing to the bucket: a call that has a
call before it is given the bucket exactly as that call left it, which is the bucket
that call was given with what its reporter added. -/
theorem fanOut_chain (rs : List (string × reporters.Interface)) (b : statistics.Statistics)
    (i : Nat) (c1 c2 : string × statistics.Statistics)
    (h1 : (fanOut rs b).calls[i]? = some c1) (h2 : (fanOut rs b).calls[i + 1]? = some c2) :
    ∃ reporter, rs[i]? = some (c1.1, reporter) ∧
      c2.2 = (reporter.ReportStatistics c1.2).1.foldl statistics.Statistics.Add c1.2 := by
  induction rs generalizing b i with
  | nil => simp [fanOut] at h1
  | cons kr rest ih =>
    obtain ⟨key, reporter⟩ := kr
    cases h : (reporter.ReportStatistics b).2 with
    | some p => simp [fanOut, h] at h2
    | none =>
      simp only [fanOut, h] at h1 h2
      cases i with
      | zero =>
        simp only [List.getElem?_cons_zero, Option.some.injEq] at h1
        simp only [List.getElem?_cons_succ] at h2
        have hhead : (fanOut rest
            ((reporter.ReportStatistics b).1.foldl statistics.Statistics.Add b)).calls.head?
            = some c2 := by
          rw [List.head?_eq_getElem?]
          exact h2
        refine ⟨reporter, by simp [← h1], ?_⟩
        rw [fanOut_head _ _ c2 hhead, ← h1]
      | succ j =>
        simp only [List.getElem?_cons_succ] at h1 h2
        obtain ⟨r, hr1, hr2⟩ := ih _ j h1 h2
        exact ⟨r, by simp [hr1], hr2⟩

/-- When the reporters of `pre` all return and the reporter after them panics on the
bucket as they left it, the fan-out loop has called the reporters of `pre` and the
panicking one, in order, and ends with the panic; the entries after it are not
called. -/
theorem fanOut_stops_at_panic (pre post : List (string × reporters.Interface))
    (key : string) (bad : reporters.Interface) (b : statistics.Statistics) (p : Panic)
    (hpre : (fanOut pre b).panic = none)
    (hbad : (bad.ReportStatistics (fanOut pre b).after).2 = some p) :
    (fanOut (pre ++ (key, bad) :: post) b).calls
        = (fanOut pre b).calls ++ [(key, (fanOut pre b).after)] ∧
      (fanOut (pre ++ (key, bad) :: post) b).panic = some p := by
  induction pre generalizing b with
  | nil =>
    simp only [fanOut] at hbad
    simp [fanOut, hbad]
  | cons kr rest ih =>
    obtain ⟨k, reporter⟩ := kr
    cases h : (reporter.ReportStatistics b).2 with
    | some q => simp [fanOut, h] at hpre
    | none =>
      simp only [fanOut, h] at hpre hbad
      have h2 := ih _ hpre hbad
      simp [fanOut, h, h2]

/-- The fan-out of a collect closure of `Pinger.Run` is the loop run on the bucket the
closure ends with. -/
theorem Pinger_collect_fanOut (p : Pinger) (rs : List (string × reporters.Interface))
    (collected : statistics.Statistics × error) :
    (Pinger.collect p rs collected).fanOut = fanOut rs (Pinger.collect p rs collected).stats := by
  obtain ⟨b, err⟩ := collected
  cases err <;> rfl

/-- The fan-out of a collect closure of `SpeedTest.Run` is the loop run on the bucket
the closure ends with. -/
theorem SpeedTest_collect_fanOut (c : SpeedTest) (rs : List (string × reporters.Interface))
    (collected : statistics.Statistics × error) :
    (SpeedTest.collect c rs collected).fanOut
      = fanOut rs (SpeedTest.collect c rs collected).stats := by
  obtain ⟨b, err⟩ := collected
  cases err <;> rfl

/-- The bucket a collect closure ends with is the bucket `Collect` returned when there
is no error, and that bucket with one count metric added when there is one. -/
theorem collect_stats (p : Pinger) (c : SpeedTest) (rs : List (string × reporters.Interface))
    (collected : statistics.Statistics × error) (cyc : Cycle)
    (hcyc : cyc = Pinger.collect p rs collected ∨ cyc = SpeedTest.collect c rs collected) :
    (collected.2 = none → cyc.stats = collected.1) ∧
      (∀ msg, collected.2 = some msg → ∃ stat m,
        cyc.stats = collected.1.Add stat ∧
        cyc.stats.Stats.1 = collected.1.Stats.1 ++ [stat] ∧
        stat.Event = none ∧ stat.Metric = some m ∧
        m.MetricType = statistics.MetricTypeCount ∧ m.Value.Int = 1) := by
  obtain ⟨b, err⟩ := collected
  rcases hcyc with h | h
  · rw [h]
    cases err with
    | none => exact ⟨fun _ => rfl, fun msg hmsg => by simp at hmsg⟩
    | some e =>
      refine ⟨fun hn => by simp at hn, fun msg _ => ?_⟩
      exact ⟨_, _, rfl, statistics.Statistics.Stats_Add _ _, rfl, rfl, rfl, rfl⟩
  · rw [h]
    cases err with
    | none => exact ⟨fun _ => rfl, fun msg hmsg => by simp at hmsg⟩
    | some e =>
      refine ⟨fun hn => by simp at hn, fun msg _ => ?_⟩
      exact ⟨_, _, rfl, statistics.Statistics.Stats_Add _ _, rfl, rfl, rfl, rfl⟩

/-- When no reporter of the map writes to the bucket and the loop ends without panic,
the calls are the entries of the map in order, each with the bucket the loop was
started with. -/
theorem fanOut_readers_calls (rs : List (string × reporters.Interface))
    (b : statistics.Statistics)
    (hread : ∀ kr ∈ rs, ∀ s, (kr.2.ReportStatistics s).1 = [])
    (hok : (fanOut rs b).panic = none) :
    (fanOut rs b).calls = rs.map (fun kr => (kr.1, b)) := by
  induction rs with
  | nil => simp [fanOut]
  | cons kr rest ih =>
    obtain ⟨key, reporter⟩ := kr
    have h1 : (reporter.ReportStatistics b).1 = [] := hread (key, reporter) (by simp) b
    cases h : (reporter.ReportStatistics b).2 with
    | some p => simp [fanOut, h] at hok
    | none =>
      simp only [fanOut, h, h1, written_nil] at hok ⊢
      simp [ih (fun kr hkr => hread kr (List.mem_cons_of_mem _ hkr)) hok]

/-- C3 (failure metric synthesis): in a collect cycle of `Pinger.Run` and of
`SpeedTest.Run`, when `Collect()` returns bucket `b` with an error, the bucket
handed to the reporters holds `Stats(b)` followed by exactly one more statistic,
which has no event and a metric of type count whose name ends in "collect_failure"
and whose value reads as `Int() = 1`; when `Collect()` returns `b` with no error the
bucket handed to the reporters is `b`, with contents `Stats(b)`.  The first
`ReportStatistics` call of the cycle is given exactly that bucket, every call finds
its contents at the front of the bucket, and when no reporter writes to the bucket
every call is given exactly that bucket. -/
theorem C3_failure_metric_synthesis (p : Pinger) (c : SpeedTest)
    (rs : List (string × reporters.Interface)) (b : statistics.Statistics) (msg : String) :
    (∃ stat m pre,
        (Pinger.collect p rs (b, some msg)).stats.Stats.1 = b.Stats.1 ++ [stat] ∧
        stat.Event = none ∧ stat.Metric = some m ∧
        stat.Type_ = statistics.MetricTypeCount ∧
        m.MetricType = statistics.MetricTypeCount ∧
        m.MetricName = pre ++ "collect_failure" ∧ m.Value.Int = 1) ∧
      (∃ stat m pre,
        (SpeedTest.collect c rs (b, some msg)).stats.Stats.1 = b.Stats.1 ++ [stat] ∧
        stat.Event = none ∧ stat.Metric = some m ∧
        stat.Type_ = statistics.MetricTypeCount ∧
        m.MetricType = statistics.MetricTypeCount ∧
        m.MetricName = pre ++ "collect_failure" ∧ m.Value.Int = 1) ∧
      (Pinger.collect p rs (b, none)).stats = b ∧
      (Pinger.collect p rs (b, none)).stats.Stats.1 = b.Stats.1 ∧
      (SpeedTest.collect c rs (b, none)).stats = b ∧
      (SpeedTest.collect c rs (b, none)).stats.Stats.1 = b.Stats.1 ∧
      (∀ err call, (Pinger.collect p rs (b, err)).fanOut.calls.head? = some call →
        call.2 = (Pinger.collect p rs (b, err)).stats) ∧
      (∀ err call, (SpeedTest.collect c rs (b, err)).fanOut.calls.head? = some call →
        call.2 = (SpeedTest.collect c rs (b, err)).stats) ∧
      (∀ err, ∀ call ∈ (Pinger.collect p rs (b, err)).fanOut.calls,
        ∃ added, call.2.Stats.1 = (Pinger.collect p rs (b, err)).stats.Stats.1 ++ added) ∧
      (∀ err, ∀ call ∈ (SpeedTest.collect c rs (b, err)).fanOut.calls,
        ∃ added, call.2.Stats.1 = (SpeedTest.collect c rs (b, err)).stats.Stats.1 ++ added) ∧
      ((∀ kr ∈ rs, ∀ s, (kr.2.ReportStatistics s).1 = []) →
        (∀ err, ∀ call ∈ (Pinger.collect p rs (b, err)).fanOut.calls,
          call.2 = (Pinger.collect p rs (b, err)).stats) ∧
        (∀ err, ∀ call ∈ (SpeedTest.collect c rs (b, err)).fanOut.calls,
          call.2 = (SpeedTest.collect c rs (b, err)).stats)) := by
  refine ⟨⟨_, _, "isp_monitor.pinger.", statistics.Statistics.Stats_Add _ _, rfl, rfl, rfl,
      rfl, ?_, rfl⟩,
    ⟨_, _, "isp_monitor.speedtest.", statistics.Statistics.Stats_Add _ _, rfl, rfl, rfl,
      rfl, ?_, rfl⟩, rfl, rfl, rfl, rfl, ?_, ?_, ?_, ?_, ?_⟩
  · simp [statistics.NewMetric, metricPrefix, collectFailureSuffix]
  · simp [statistics.NewMetric, metricPrefix, collectFailureSuffix]
  · intro err call hcall
    rw [Pinger_collect_fanOut] at hcall
    exact fanOut_head _ _ call hcall
  · intro err call hcall
    rw [SpeedTest_collect_fanOut] at hcall
    exact fanOut_head _ _ call hcall
  · intro err call hcall
    rw [Pinger_collect_fanOut] at hcall
    exact fanOut_calls_extend _ _ call hcall
  · intro err call hcall
    rw [SpeedTest_collect_fanOut] at hcall
    exact fanOut_calls_extend _ _ call hcall
  · intro hread
    constructor
    · intro err call hcall
      rw [Pinger_collect_fanOut] at hcall
      exact (fanOut_readers _ _ hread).1 call hcall
    · intro err call hcall
      rw [SpeedTest_collect_fanOut] at hcall
      exact (fanOut_readers _ _ hread).1 call hcall

/-- C4, as the claim states it, fails: with a reporter that adds one statistic to the
bucket during its call and the log reporter visited after it, neither of which
fails, the first call finds one statistic in the bucket, the one `Collect`
produced, and the second call finds two. -/
theorem C4_writing_reporter_changes_bucket :
    (Pinger.collect examples.pinger examples.writerThenLog
        (examples.oneTiming, none)).fanOut.panic = none ∧
      (Pinger.collect examples.pinger examples.writerThenLog
        (examples.oneTiming, none)).stats.Stats.1.length = 1 ∧
      ((Pinger.collect examples.pinger examples.writerThenLog
        (examples.oneTiming, none)).fanOut.calls.map (fun call => call.2.Stats.1.length))
        = [1, 2] ∧
      ((SpeedTest.collect examples.speedTest examples.writerThenLog
        (examples.oneTiming, none)).fanOut.calls.map (fun call => call.2.Stats.1.length))
        = [1, 2] := by
  refine ⟨rfl, rfl, rfl, rfl⟩

/-- C4, amended (fan-out of the shared bucket): in one collect cycle of `Pinger.Run`
or `SpeedTest.Run` over a reporter map with distinct keys in which no reporter
fails, `ReportStatistics` is called exactly once on every reporter of the map and on
no other.  The bucket handed over is the one `Collect` returned, with the failure
metric added when `Collect` returned an error.  The first call finds exactly that
bucket; the loop does nothing to the bucket between two calls, so each later call
finds the bucket as the call before it left it; every call finds the statistics of
that bucket at the front, in their order, followed by what the reporters called
before it added; and when no reporter of the map writes to the bucket every call
finds exactly that bucket. -/
theorem C4_fan_out_shared_bucket (p : Pinger) (c : SpeedTest)
    (rs : List (string × reporters.Interface))
    (collected : statistics.Statistics × error) (cyc : Cycle)
    (hcyc : cyc = Pinger.collect p rs collected ∨ cyc = SpeedTest.collect c rs collected)
    (hkeys : (rs.map Prod.fst).Nodup)
    (hok : cyc.fanOut.panic = none) :
    cyc.fanOut.calls.map Prod.fst = rs.map Prod.fst ∧
      cyc.fanOut.calls.length = rs.length ∧
      (∀ key, (cyc.fanOut.calls.map Prod.fst).count key
        = if key ∈ rs.map Prod.fst then 1 else 0) ∧
      (collected.2 = none → cyc.stats = collected.1) ∧
      (∀ msg, collected.2 = some msg → ∃ stat m,
        cyc.stats = collected.1.Add stat ∧
        cyc.stats.Stats.1 = collected.1.Stats.1 ++ [stat] ∧
        stat.Event = none ∧ stat.Metric = some m ∧
        m.MetricType = statistics.MetricTypeCount ∧ m.Value.Int = 1) ∧
      (∀ call, cyc.fanOut.calls.head? = some call → call.2 = cyc.stats) ∧
      (∀ i c1 c2, cyc.fanOut.calls[i]? = some c1 → cyc.fanOut.calls[i + 1]? = some c2 →
        ∃ reporter, rs[i]? = some (c1.1, reporter) ∧
          c2.2 = (reporter.ReportStatistics c1.2).1.foldl statistics.Statistics.Add c1.2) ∧
      (∀ call ∈ cyc.fanOut.calls, ∃ added, call.2.Stats.1 = cyc.stats.Stats.1 ++ added) ∧
      ((∀ kr ∈ rs, ∀ s, (kr.2.ReportStatistics s).1 = []) →
        cyc.fanOut.calls = rs.map (fun kr => (kr.1, cyc.stats)) ∧
          ∀ call ∈ cyc.fanOut.calls,
            call.2 = cyc.stats ∧ call.2.Stats.1 = cyc.stats.Stats.1) := by
  have hfan : cyc.fanOut = fanOut rs cyc.stats := by
    rcases hcyc with h | h
    · rw [h]; exact Pinger_collect_fanOut p rs collected
    · rw [h]; exact SpeedTest_collect_fanOut c rs collected
  have hstats := collect_stats p c rs collected cyc hcyc
  rw [hfan] at hok ⊢
  have hmap := fanOut_keys rs cyc.stats hok
  refine ⟨hmap, ?_, ?_, hstats.1, hstats.2, ?_, ?_, ?_, ?_⟩
  · have h := congrArg List.length hmap
    simpa using h
  · intro key
    rw [hmap]
    exact List.count_eq_of_nodup hkeys
  · intro call hcall
    exact fanOut_head rs cyc.stats call hcall
  · intro i c1 c2 h1 h2
    exact fanOut_chain rs cyc.stats i c1 c2 h1 h2
  · exact fanOut_calls_extend rs cyc.stats
  · intro hread
    refine ⟨fanOut_readers_calls rs cyc.stats hread hok, ?_⟩
    intro call hcall
    have h := (fanOut_readers rs cyc.stats hread).1 call hcall
    rw [h]
    exact ⟨rfl, rfl⟩

/-- C4, amended, at a concrete cycle: a pinger whose `Collect` failed on a bucket of
one statistic and the map of the log and the DataDog reporter, which both return and
do not write to the bucket; both are called once and both find the two statistics,
the one of `Collect` and the failure metric. -/
theorem C4_fan_out_shared_bucket_witness :
    (examples.logAndDataDog.map Prod.fst).Nodup ∧
      (Pinger.collect examples.pinger examples.logAndDataDog
          (examples.oneTiming, some "no route")).fanOut.panic = none ∧
      ((Pinger.collect examples.pinger examples.logAndDataDog
          (examples.oneTiming, some "no route")).fanOut.calls.map Prod.fst)
        = ["log", "datadog"] ∧
      ((Pinger.collect examples.pinger examples.logAndDataDog
          (examples.oneTiming, some "no route")).fanOut.calls.map
            (fun call => call.2.Stats.1.length)) = [2, 2] := by
  have h := C4_fan_out_shared_bucket examples.pinger examples.speedTest
    examples.logAndDataDog (examples.oneTiming, some "no route") _ (Or.inl rfl)
    (by decide) rfl
  refine ⟨by decide, rfl, ?_, rfl⟩
  rw [h.1]
  rfl

/-- C5, as the claim states it, fails: with three reporters of which the second one
visited panics, the third reporter is never called in that cycle (the first one and
the panicking one are), and the panic leaves the collect closure. -/
theorem C5_third_reporter_not_called :
    ((Pinger.collect examples.pinger examples.threeReporters
        (examples.oneTiming, none)).fanOut.calls.map Prod.fst) = ["first", "second"] ∧
      ((Pinger.collect examples.pinger examples.threeReporters
        (examples.oneTiming, none)).fanOut.calls.map Prod.fst).count "third" = 0 ∧
      (Pinger.collect examples.pinger examples.threeReporters
        (examples.oneTiming, none)).fanOut.panic = some (Panic.other "report failed") ∧
      ((SpeedTest.collect examples.speedTest examples.threeReporters
        (examples.oneTiming, none)).fanOut.calls.map Prod.fst).count "third" = 0 := by
  refine ⟨rfl, by decide, rfl, by decide⟩

/-- C5, amended (no isolation of a failing reporter): in a collect cycle of
`Pinger.Run` or `SpeedTest.Run` over a reporter map with distinct keys, when the
reporters visited first all return and the `ReportStatistics` of the next one panics
on the bucket as they left it, every reporter visited before it was called exactly
once, the panicking reporter was called once, no reporter after it in the order of
the iteration is called, and the panic leaves the collect closure.  Every call found
the statistics of the cycle's bucket at the front of the bucket, and when the
reporters visited before the panicking one do not write to the bucket, every call
was given exactly the cycle's bucket. -/
theorem C5_panic_ends_fan_out (p : Pinger) (c : SpeedTest)
    (pre post : List (string × reporters.Interface)) (key : string)
    (bad : reporters.Interface) (collected : statistics.Statistics × error) (cyc : Cycle)
    (pn : Panic)
    (hcyc : cyc = Pinger.collect p (pre ++ (key, bad) :: post) collected ∨
      cyc = SpeedTest.collect c (pre ++ (key, bad) :: post) collected)
    (hkeys : ((pre ++ (key, bad) :: post).map Prod.fst).Nodup)
    (hpre : (fanOut pre cyc.stats).panic = none)
    (hbad : (bad.ReportStatistics (fanOut pre cyc.stats).after).2 = some pn) :
    cyc.fanOut.panic = some pn ∧
      cyc.fanOut.calls.map Prod.fst = (pre ++ [(key, bad)]).map Prod.fst ∧
      (∀ kr ∈ pre, (cyc.fanOut.calls.map Prod.fst).count kr.1 = 1) ∧
      (cyc.fanOut.calls.map Prod.fst).count key = 1 ∧
      (∀ kr ∈ post, (cyc.fanOut.calls.map Prod.fst).count kr.1 = 0) ∧
      (∀ call ∈ cyc.fanOut.calls, ∃ added, call.2.Stats.1 = cyc.stats.Stats.1 ++ added) ∧
      ((∀ kr ∈ pre, ∀ s, (kr.2.ReportStatistics s).1 = []) →
        cyc.fanOut.calls = (pre ++ [(key, bad)]).map (fun kr => (kr.1, cyc.stats))) := by
  have hfan : cyc.fanOut = fanOut (pre ++ (key, bad) :: post) cyc.stats := by
    rcases hcyc with h | h
    · rw [h]; exact Pinger_collect_fanOut p _ collected
    · rw [h]; exact SpeedTest_collect_fanOut c _ collected
  obtain ⟨hcalls, hpanic⟩ := fanOut_stops_at_panic pre post key bad cyc.stats pn hpre hbad
  have hmap : (cyc.fanOut.calls.map Prod.fst) = pre.map Prod.fst ++ [key] := by
    rw [hfan, hcalls]
    simp [fanOut_keys pre cyc.stats hpre]
  have hnd : (pre.map Prod.fst ++ key :: post.map Prod.fst).Nodup := by
    simpa using hkeys
  have hnd1 : (pre.map Prod.fst ++ [key]).Nodup := by
    have hsub : List.Sublist (pre.map Prod.fst ++ [key])
        (pre.map Prod.fst ++ key :: post.map Prod.fst) :=
      List.Sublist.append_left (by simp) _
    exact hsub.nodup hnd
  refine ⟨by rw [hfan]; exact hpanic, by rw [hmap]; simp, ?_, ?_, ?_, ?_, ?_⟩
  · intro kr hkr
    rw [hmap]
    exact List.count_eq_one_of_mem hnd1 (by simp; exact Or.inl ⟨kr.2, hkr⟩)
  · rw [hmap]
    exact List.count_eq_one_of_mem hnd1 (by simp)
  · intro kr hkr
    rw [hmap]
    apply List.count_eq_zero_of_not_mem
    intro hmem
    have hdisj := (List.nodup_append.1 hnd).2.2
    have h2 : kr.1 ∈ key :: post.map Prod.fst := by
      simp; exact Or.inr ⟨kr.2, hkr⟩
    rcases List.mem_append.1 hmem with h1 | h1
    · exact hdisj h1 h2
    · simp at h1
      have hnd2 := (List.nodup_append.1 hnd).2.1
      have hkey : key ∉ post.map Prod.fst := (List.nodup_cons.1 hnd2).1
      exact hkey (by rw [← h1]; exact List.mem_map_of_mem Prod.fst hkr)
  · rw [hfan]
    exact fanOut_calls_extend _ cyc.stats
  · intro hread
    rw [hfan, hcalls, fanOut_readers_calls pre cyc.stats hread hpre,
      (fanOut_readers pre cyc.stats hread).2]
    simp

/-- C5, amended, at a concrete cycle: three reporters of which the second one visited
panics; the first is called once, the third is not called. -/
theorem C5_panic_ends_fan_out_witness :
    (([("first", examples.returning "first")] ++
        ("second", examples.panicking "second") ::
          [("third", examples.returning "third")]).map Prod.fst).Nodup ∧
      (Pinger.collect examples.pinger examples.threeReporters
        (examples.oneTiming, none)).fanOut.panic = some (Panic.other "report failed") ∧
      ((Pinger.collect examples.pinger examples.threeReporters
        (examples.oneTiming, none)).fanOut.calls.map Prod.fst).count "first" = 1 ∧
      ((Pinger.collect examples.pinger examples.threeReporters
        (examples.oneTiming, none)).fanOut.calls.map Prod.fst).count "third" = 0 := by
  have h := C5_panic_ends_fan_out examples.pinger examples.speedTest
    [("first", examples.returning "first")] [("third", examples.returning "third")]
    "second" (examples.panicking "second") (examples.oneTiming, none) _
    (Panic.other "report failed") (Or.inl rfl) (by decide) rfl rfl
  exact ⟨by decide, h.1, h.2.2.1 _ (List.mem_singleton.2 rfl),
    h.2.2.2.2.1 _ (List.mem_singleton.2 rfl)⟩

end collectors

/-! ## The reporters' demultiplexer -/

namespace reporters

/-- The two reporters run the same loop: on every slice of statistics
`Log.ReportStatistics` and `DataDog.ReportStatistics` make the same emitter calls in
the same order and end the same way. -/
theorem reportLoop_Log_eq_DataDog (l : log.Log) (d : datadog.DataDog)
    (xs : List statistics.Statistic) :
    log.Log.reportLoop l xs = datadog.DataDog.reportLoop d xs := by
  induction xs with
  | nil => rfl
  | cons stat rest ih =>
    simp only [log.Log.reportLoop, datadog.DataDog.reportLoop, ih]

/-- On a slice in which every statistic whose `Type()` is "event" has its event
present, the loop does not panic and makes exactly the emitter calls of the
demultiplexing that the specification describes, in the order of the slice. -/
theorem reportLoop_eq_demultiplex (l : log.Log) (xs : List statistics.Statistic)
    (hsafe : ∀ stat ∈ xs, stat.Type_ = statistics.EventType → stat.Event ≠ none) :
    log.Log.reportLoop l xs = { calls := xs.filterMap demultiplex, panic := none } := by
  induction xs with
  | nil => rfl
  | cons stat rest ih =>
    have ih1 := ih (fun s hs => hsafe s (List.mem_cons_of_mem _ hs))
    have hstat := hsafe stat (List.mem_cons_self _ _)
    obtain ⟨metric, event⟩ := stat
    cases event with
    | some e =>
      simp [log.Log.reportLoop, demultiplex, statistics.Statistic.Type_, ih1, Emitted.after,
        statistics.EventType]
    | none =>
      cases metric with
      | none =>
        simp [log.Log.reportLoop, demultiplex, statistics.Statistic.Type_, ih1,
          statistics.EventType, statistics.MetricTypeCount, statistics.MetricTypeGauge,
          statistics.MetricTypeTiming, statistics.MetricTypeHistogram]
      | some m =>
        have hne : m.MetricType ≠ "event" := by
          intro h
          exact hstat (by simp [statistics.Statistic.Type_, statistics.EventType, h]) rfl
        simp only [log.Log.reportLoop, demultiplex, statistics.Statistic.Type_, ih1,
          statistics.EventType, statistics.MetricTypeCount, statistics.MetricTypeGauge,
          statistics.MetricTypeTiming, statistics.MetricTypeHistogram, if_neg hne,
          List.filterMap_cons]
        split_ifs <;> simp [Emitted.after]

/-- C6 (demultiplexing) at a bucket that `NewStatistic` and `NewMetric` can build: a
statistic made of a metric whose type is `EventType` and of no event has `Type()`
equal to "event", and both `Log.ReportStatistics` and `DataDog.ReportStatistics`
panic on the nil `stat.Event` without making the `Event` call, or any emitter call,
for it. -/
theorem C6_event_typed_metric_panics :
    examples.eventTypedMetric.Stats.1.map statistics.Statistic.Type_ = ["event"] ∧
      (log.Log.ReportStatistics (log.New "log") examples.eventTypedMetric).calls = [] ∧
      (log.Log.ReportStatistics (log.New "log") examples.eventTypedMetric).panic
        = some Panic.nilDereference ∧
      (datadog.DataDog.ReportStatistics (datadog.New "datadog" "127.0.0.1:8125")
        examples.eventTypedMetric).calls = [] ∧
      (datadog.DataDog.ReportStatistics (datadog.New "datadog" "127.0.0.1:8125")
        examples.eventTypedMetric).panic = some Panic.nilDereference := by
  refine ⟨rfl, rfl, rfl, rfl, rfl⟩

end reporters

/-! ## The integer coercions -/

namespace statistics

/-- The conversion of a `uint64` to `int64` keeps a value below `2^63` and subtracts
`2^64` from any other; the result is in the `int64` range. -/
theorem int64OfUint64_eq (u : uint64) (hu : u < 2 ^ 64) :
    int64OfUint64 u = (if u < 2 ^ 63 then (u : Int) else (u : Int) - 2 ^ 64) ∧
      -(2 ^ 63 : Int) ≤ int64OfUint64 u ∧ int64OfUint64 u < 2 ^ 63 := by
  have hmod : u % 2 ^ 64 = u := Nat.mod_eq_of_lt hu
  have hval : int64OfUint64 u = (if u < 2 ^ 63 then (u : Int) else (u : Int) - 2 ^ 64) := by
    unfold int64OfUint64
    rw [hmod]
  rw [hval]
  refine ⟨rfl, ?_, ?_⟩
  · split_ifs with h
    · have : (0 : Int) ≤ (u : Int) := Int.ofNat_nonneg u
      have h63 : (0 : Int) < 2 ^ 63 := by norm_num
      linarith
    · have h1 : (2 : Int) ^ 63 ≤ (u : Int) := by
        have : (2 : Nat) ^ 63 ≤ u := Nat.le_of_not_lt h
        exact_mod_cast this
      have : (2 : Int) ^ 64 = 2 * 2 ^ 63 := by norm_num
      linarith
  · split_ifs with h
    · exact_mod_cast h
    · have h1 : (u : Int) < 2 ^ 64 := by exact_mod_cast hu
      have : (2 : Int) ^ 64 = 2 * 2 ^ 63 := by norm_num
      have h63 : (0 : Int) < 2 ^ 63 := by norm_num
      linarith

/-- C11 (integer coercion table): for every `int64` `n`, `uint64` `u` and duration
`d`, `NewIntValue(n).Duration()` is the duration of `n` ticks and
`NewDurationValue(d).Int()` is the tick count of `d`, so the two coercions are
inverse to each other; `NewUintValue(u).Int()` and `NewUintValue(u).Duration()` are
both `u` read as a 64-bit two's complement integer, `u` below `2^63` and `u - 2^64`
otherwise; `NewIntValue(n).String()` and `NewUintValue(u).String()` are the decimal
renderings of `n` and `u`. -/
theorem C11_integer_coercions (n : int64) (u : uint64) (d : time.Duration)
    (hu : u < 2 ^ 64) :
    (NewIntValue n).Duration = n ∧ (NewDurationValue d).Int = d ∧
      (NewDurationValue (NewIntValue n).Duration).Int = n ∧
      (NewIntValue (NewDurationValue d).Int).Duration = d ∧
      (NewUintValue u).Int = (if u < 2 ^ 63 then (u : Int) else (u : Int) - 2 ^ 64) ∧
      (NewUintValue u).Duration = (if u < 2 ^ 63 then (u : Int) else (u : Int) - 2 ^ 64) ∧
      (NewIntValue n).String = toString n ∧ (NewUintValue u).String = toString u ∧
      (NewIntValue (-42)).String = "-42" ∧
      (NewUintValue 18446744073709551615).String = "18446744073709551615" := by
  refine ⟨rfl, rfl, rfl, rfl, (int64OfUint64_eq u hu).1, (int64OfUint64_eq u hu).1, rfl, rfl,
    rfl, ?_⟩
  decide

/-- C11 at concrete values: the largest `uint64` reads as `-1`, and `2^63 - 1` as
itself. -/
theorem C11_integer_coercions_witness :
    (18446744073709551615 : Nat) < 2 ^ 64 ∧
      (NewUintValue 18446744073709551615).Int = -1 ∧
      (NewUintValue 18446744073709551615).Duration = -1 ∧
      (NewUintValue 9223372036854775807).Int = 9223372036854775807 ∧
      (NewIntValue 7).Duration = 7 := by
  have h := C11_integer_coercions 7 18446744073709551615 0 (by norm_num)
  refine ⟨by norm_num, ?_, ?_, ?_, h.1⟩
  · rw [h.2.2.2.2.1]; norm_num
  · rw [h.2.2.2.2.2.1]; norm_num
  · rw [(C11_integer_coercions 7 9223372036854775807 0 (by norm_num)).2.2.2.2.1]; norm_num

end statistics

/-! ## The intervals of the collectors -/

namespace collectors

/-- The result of `durationFromString` is the parsed duration exactly when parsing
succeeds with a positive duration, and the default otherwise. -/
theorem durationFromString_eq (lib : Library) (s : string) (dflt : time.Duration) :
    durationFromString lib s dflt =
      if (lib.ParseDuration s).2 = none ∧ 0 < (lib.ParseDuration s).1
      then (lib.ParseDuration s).1 else dflt := by
  simp [durationFromString]

/-- With a positive default the result of `durationFromString` is positive. -/
theorem durationFromString_pos (lib : Library) (s : string) (dflt : time.Duration)
    (hdflt : 0 < dflt) : 0 < durationFromString lib s dflt := by
  rw [durationFromString_eq]
  split_ifs with h
  · exact h.2
  · exact hdflt

/-- C12 (interval default fallback): `durationFromString(s, def)` returns the parsed
duration `d` when `s` parses without error and `d > 0`, and returns `def` in every
other case: `s` does not parse (an empty `s` does not), `d = 0`, or `d < 0`.  Hence,
the defaults being 30 seconds and 5 seconds, the `collectInterval` of every collector
that `NewPingerFromConfig` or `NewSpeedTestFromConfig` builds is strictly positive,
for every config section; `NewSpeedTestFromConfig` builds one for every section. -/
theorem C12_interval_default_fallback (lib : Library) (s : string) (dflt : time.Duration)
    (cfg : config.Section) (debug : Bool) :
    (∀ d, lib.ParseDuration s = (d, none) → 0 < d → durationFromString lib s dflt = d) ∧
      (∀ d, lib.ParseDuration s = (d, none) → d ≤ 0 → durationFromString lib s dflt = dflt) ∧
      (∀ d msg, lib.ParseDuration s = (d, some msg) → durationFromString lib s dflt = dflt) ∧
      (0 < dflt → 0 < durationFromString lib s dflt) ∧
      (∀ p, NewPingerFromConfig lib cfg debug = some p →
        0 < p.collectInterval ∧
          p.collectInterval = durationFromString lib cfg.Interval (30 * time.Second)) ∧
      (∀ c, NewSpeedTestFromConfig lib cfg debug = some c →
        0 < c.interval ∧ c.interval = durationFromString lib cfg.Interval (30 * time.Second)) ∧
      (∃ c, NewSpeedTestFromConfig lib cfg debug = some c) := by
  have h30 : (0 : Int) < time.Second * 30 := by decide
  have hcomm : (30 : Int) * time.Second = time.Second * 30 := by decide
  refine ⟨?_, ?_, ?_, durationFromString_pos lib s dflt, ?_, ?_, ⟨_, rfl⟩⟩
  · intro d hd hpos
    rw [durationFromString_eq, hd]
    simp [hpos]
  · intro d hd hle
    rw [durationFromString_eq, hd]
    simp [not_lt.2 hle]
  · intro d msg hd
    rw [durationFromString_eq, hd]
    simp
  · intro p hp
    unfold NewPingerFromConfig at hp
    simp only at hp
    split_ifs at hp with ha
    all_goals
      have hp1 := Option.some.inj hp
      rw [← hp1, hcomm]
      exact ⟨durationFromString_pos lib cfg.Interval _ h30, rfl⟩
  · intro c hc
    have hc1 := Option.some.inj hc
    rw [← hc1, hcomm]
    exact ⟨durationFromString_pos lib cfg.Interval _ h30, rfl⟩

/-- C12 at concrete sections: the interval "10s" gives a collector with a collect
interval of ten seconds, and the intervals "", "0s" and "-5s" give the default of
thirty seconds. -/
theorem C12_interval_default_fallback_witness :
    (∃ p, NewPingerFromConfig examples.library (examples.pingSection "10s") false = some p ∧
        p.collectInterval = 10 * time.Second ∧ 0 < p.collectInterval) ∧
      (∃ p, NewPingerFromConfig examples.library (examples.pingSection "") false = some p ∧
        p.collectInterval = 30 * time.Second) ∧
      (∃ c, NewSpeedTestFromConfig examples.library (examples.speedtestSection "-5s") true
          = some c ∧ c.interval = 30 * time.Second ∧ 0 < c.interval) ∧
      durationFromString examples.library "0s" (30 * time.Second) = 30 * time.Second := by
  refine ⟨⟨_, rfl, rfl, ?_⟩, ⟨_, rfl, rfl⟩, ⟨_, rfl, rfl, ?_⟩, ?_⟩
  · exact ((C12_interval_default_fallback examples.library "" 0
      (examples.pingSection "10s") false).2.2.2.2.1 _ rfl).1
  · exact ((C12_interval_default_fallback examples.library "" 0
      (examples.speedtestSection "-5s") true).2.2.2.2.2.1 _ rfl).1
  · exact (C12_interval_default_fallback examples.library "0s" (30 * time.Second)
      (examples.pingSection "") false).2.1 0 rfl (le_refl _)

end collectors

/-! ## The scheduling loop -/

namespace collectors

/-- One more tick puts the cycle it starts in front of the later ones. -/
theorem tickCycles_succ (collect : Nat → Cycle) (n t : Nat) :
    tickCycles collect n (t + 1) =
      SchedEvent.tick :: SchedEvent.collectCalled n ::
        SchedEvent.collectReturned n (collect n) :: tickCycles collect (n + 1) t := by
  unfold tickCycles
  rw [List.range_succ_eq_map, List.flatMap_cons, List.flatMap_map]
  have hfun : (fun a : Nat => [SchedEvent.tick, SchedEvent.collectCalled (n + a.succ),
        SchedEvent.collectReturned (n + a.succ) (collect (n + a.succ))]) =
      (fun j => [SchedEvent.tick, SchedEvent.collectCalled (n + 1 + j),
        SchedEvent.collectReturned (n + 1 + j) (collect (n + 1 + j))]) := by
    funext j
    have h : n + Nat.succ j = n + 1 + j := by omega
    rw [h]
  rw [hfun]
  rfl

/-- While no call of `collect` panics, the loop of the goroutine runs one complete
cycle for every tick. -/
theorem tickLoop_no_panic (collect : Nat → Cycle) (t n : Nat)
    (hok : ∀ i, i < t → (collect (n + i)).fanOut.panic = none) :
    tickLoop collect t n = tickCycles collect n t := by
  induction t generalizing n with
  | zero => rfl
  | succ t ih =>
    have h0 : (collect n).fanOut.panic = none := hok 0 (Nat.succ_pos t)
    have hrest : ∀ i, i < t → (collect (n + 1 + i)).fanOut.panic = none := by
      intro i hi
      have h := hok (i + 1) (Nat.succ_lt_succ hi)
      have e : n + (i + 1) = n + 1 + i := by omega
      rw [e] at h
      exact h
    rw [tickCycles_succ, tickLoop, runCollect, h0, ih (n + 1) hrest]

/-- When the call of `collect` started by tick `j + 1` is the first to panic, the loop
has run the complete cycles before it and ends in that call. -/
theorem tickLoop_panic (collect : Nat → Cycle) (j t n : Nat) (p : Panic) (hj : j < t)
    (hok : ∀ i, i < j → (collect (n + i)).fanOut.panic = none)
    (hbad : (collect (n + j)).fanOut.panic = some p) :
    tickLoop collect t n = tickCycles collect n j ++
      [SchedEvent.tick, SchedEvent.collectCalled (n + j),
        SchedEvent.collectPanicked (n + j) (collect (n + j)) p] := by
  induction j generalizing n t with
  | zero =>
    obtain ⟨t, rfl⟩ : ∃ u, t = u + 1 := ⟨t - 1, by omega⟩
    have hbad0 : (collect n).fanOut.panic = some p := hbad
    simp [tickLoop, runCollect, hbad0, tickCycles]
  | succ j ih =>
    obtain ⟨t, rfl⟩ : ∃ u, t = u + 1 := ⟨t - 1, by omega⟩
    have h0 : (collect n).fanOut.panic = none := hok 0 (Nat.succ_pos j)
    have hrest : ∀ i, i < j → (collect (n + 1 + i)).fanOut.panic = none := by
      intro i hi
      have h := hok (i + 1) (Nat.succ_lt_succ hi)
      have e : n + (i + 1) = n + 1 + i := by omega
      rw [e] at h
      exact h
    have e : n + (j + 1) = n + 1 + j := by omega
    rw [e] at hbad
    rw [tickCycles_succ, tickLoop, runCollect, h0,
      ih t (n + 1) (Nat.lt_of_succ_lt_succ hj) hrest hbad, e]
    rfl

/-- In the loop of the goroutine every tick received starts exactly one call of
`collect`, whether or not a call panics. -/
theorem tickLoop_counts (collect : Nat → Cycle) (t n : Nat) :
    cyclesStarted (tickLoop collect t n) = ticksConsumed (tickLoop collect t n) := by
  induction t generalizing n with
  | zero => rfl
  | succ t ih =>
    have h := ih (n + 1)
    unfold cyclesStarted ticksConsumed at h ⊢
    cases hp : (collect n).fanOut.panic with
    | some p => simp [tickLoop, runCollect, hp]
    | none => simp [tickLoop, runCollect, hp, h]

/-- The complete cycles of `t` ticks hold `t` ticks. -/
theorem ticksConsumed_tickCycles (collect : Nat → Cycle) (t n : Nat) :
    ticksConsumed (tickCycles collect n t) = t := by
  induction t generalizing n with
  | zero => rfl
  | succ t ih =>
    have h := ih (n + 1)
    rw [tickCycles_succ]
    unfold ticksConsumed at h ⊢
    simp [h]

/-- With a positive interval the goroutine creates the ticker and calls `collect`
before it waits for a tick. -/
theorem schedule_pos (interval : time.Duration) (collect : Nat → Cycle) (k : Nat)
    (hpos : 0 < interval) :
    schedule interval collect k =
      SchedEvent.newTicker interval :: runCollect collect 0 (tickLoop collect k 1) := by
  unfold schedule
  rw [if_neg (not_le.2 hpos)]

/-- C13, as the claim states it, fails: on a pinger that `NewPinger` builds with a
collect interval of zero, and on a speedtest collector that `NewSpeedTest` builds
with an interval of zero, `time.NewTicker` panics before the first `collect()`: the
goroutine of `Run` starts no cycle at all, so the cycle at the start is skipped and
the number of cycles started is not the number of ticks consumed plus one. -/
theorem C13_zero_interval_no_cycle :
    Pinger.Run examples.zeroIntervalPinger (fun _ => examples.logAndDataDog)
        (fun _ => (examples.oneTiming, none)) 3
      = [SchedEvent.newTickerPanicked (Panic.other "non-positive interval for NewTicker")] ∧
      cyclesStarted (Pinger.Run examples.zeroIntervalPinger (fun _ => examples.logAndDataDog)
        (fun _ => (examples.oneTiming, none)) 3) = 0 ∧
      cyclesStarted (Pinger.Run examples.zeroIntervalPinger (fun _ => examples.logAndDataDog)
        (fun _ => (examples.oneTiming, none)) 3) ≠
        ticksConsumed (Pinger.Run examples.zeroIntervalPinger
          (fun _ => examples.logAndDataDog) (fun _ => (examples.oneTiming, none)) 3) + 1 ∧
      cyclesStarted (SpeedTest.Run examples.zeroIntervalSpeedTest
        (fun _ => examples.logAndDataDog) (fun _ => (examples.oneTiming, none)) 3) = 0 := by
  refine ⟨rfl, by decide, by decide, by decide⟩

/-- C13, amended (immediate-then-periodic cadence): in the goroutine that
`Pinger.Run` or `SpeedTest.Run` starts on a collector whose interval is positive, run
until the ticker has delivered `k` ticks: the number of cycles started is the number of ticks consumed plus one; the
first cycle is started right after the ticker is created, before any tick is waited
for; when no cycle panics all `k` ticks are consumed, `k + 1` cycles are started, and
the events are exactly the cadence: cycle 0, then for every tick one cycle, each
started after the one before it has returned from its fan-out; and when a cycle
panics the events follow the cadence up to that cycle and end there. -/
theorem C13_cadence (p : Pinger) (c : SpeedTest)
    (rs : Nat → List (string × reporters.Interface))
    (col : Nat → statistics.Statistics × error) (k : Nat)
    (events : List SchedEvent) (interval : time.Duration) (collect : Nat → Cycle)
    (hrun : (events = Pinger.Run p rs col k ∧ interval = p.collectInterval ∧
        collect = fun n => Pinger.collect p (rs n) (col n)) ∨
      (events = SpeedTest.Run c rs col k ∧ interval = c.interval ∧
        collect = fun n => SpeedTest.collect c (rs n) (col n)))
    (hpos : 0 < interval) :
    cyclesStarted events = ticksConsumed events + 1 ∧
      (∃ rest, events = SchedEvent.newTicker interval :: SchedEvent.collectCalled 0 :: rest) ∧
      ((∀ n, n ≤ k → (collect n).fanOut.panic = none) →
        events = cadence interval collect k ∧ ticksConsumed events = k ∧
          cyclesStarted events = k + 1) ∧
      (∀ pn, (collect 0).fanOut.panic = some pn →
        events = [SchedEvent.newTicker interval, SchedEvent.collectCalled 0,
          SchedEvent.collectPanicked 0 (collect 0) pn]) ∧
      (∀ j pn, j < k → (∀ n, n ≤ j → (collect n).fanOut.panic = none) →
        (collect (j + 1)).fanOut.panic = some pn →
        events = cadence interval collect j ++
          [SchedEvent.tick, SchedEvent.collectCalled (j + 1),
            SchedEvent.collectPanicked (j + 1) (collect (j + 1)) pn]) := by
  have hev : events = schedule interval collect k := by
    rcases hrun with ⟨h1, h2, h3⟩ | ⟨h1, h2, h3⟩
    · rw [h1, h2, h3]; rfl
    · rw [h1, h2, h3]; rfl
  rw [hev, schedule_pos interval collect k hpos]
  have hcount : cyclesStarted
      (SchedEvent.newTicker interval :: runCollect collect 0 (tickLoop collect k 1)) =
      ticksConsumed
        (SchedEvent.newTicker interval :: runCollect collect 0 (tickLoop collect k 1)) + 1 := by
    have h := tickLoop_counts collect k 1
    unfold cyclesStarted ticksConsumed at h ⊢
    cases hp : (collect 0).fanOut.panic with
    | some pn => simp [runCollect, hp]
    | none => simp [runCollect, hp, h]
  refine ⟨hcount, ?_, ?_, ?_, ?_⟩
  · cases hp : (collect 0).fanOut.panic with
    | some pn =>
      exact ⟨[SchedEvent.collectPanicked 0 (collect 0) pn], by simp [runCollect, hp]⟩
    | none =>
      exact ⟨SchedEvent.collectReturned 0 (collect 0) :: tickLoop collect k 1,
        by simp [runCollect, hp]⟩
  · intro hok
    have h0 : (collect 0).fanOut.panic = none := hok 0 (Nat.zero_le k)
    have hloop : tickLoop collect k 1 = tickCycles collect 1 k :=
      tickLoop_no_panic collect k 1 (fun i hi => hok (1 + i) (by omega))
    have htr : SchedEvent.newTicker interval :: runCollect collect 0 (tickLoop collect k 1)
        = cadence interval collect k := by
      simp [runCollect, h0, hloop, cadence]
    have hticks : ticksConsumed (cadence interval collect k) = k := by
      have h := ticksConsumed_tickCycles collect k 1
      unfold ticksConsumed at h ⊢
      simp [cadence, h]
    rw [htr] at hcount ⊢
    exact ⟨rfl, hticks, by rw [hcount, hticks]⟩
  · intro pn hp
    simp [runCollect, hp]
  · intro j pn hj hok hbad
    have h0 : (collect 0).fanOut.panic = none := hok 0 (Nat.zero_le j)
    have e : 1 + j = j + 1 := by omega
    have hloop := tickLoop_panic collect j k 1 pn hj (fun i hi => hok (1 + i) (by omega))
      (by rw [e]; exact hbad)
    rw [e] at hloop
    simp [runCollect, h0, hloop, cadence]

/-- C13 at a concrete run: the example pinger, two reporters that return and three
ticks give four cycles, the first one before any tick. -/
theorem C13_cadence_witness :
    (0 : Int) < examples.pinger.collectInterval ∧
      cyclesStarted (Pinger.Run examples.pinger (fun _ => examples.twoReporters)
        (fun _ => (examples.oneTiming, none)) 3) = 4 ∧
      ticksConsumed (Pinger.Run examples.pinger (fun _ => examples.twoReporters)
        (fun _ => (examples.oneTiming, none)) 3) = 3 ∧
      (Pinger.Run examples.pinger (fun _ => examples.twoReporters)
        (fun _ => (examples.oneTiming, none)) 3).length = 12 := by
  have h := C13_cadence examples.pinger examples.speedTest (fun _ => examples.twoReporters)
    (fun _ => (examples.oneTiming, none)) 3 _ _ _ (Or.inl ⟨rfl, rfl, rfl⟩) (by decide)
  have hok := h.2.2.1 (fun n _ => rfl)
  exact ⟨by decide, hok.2.2, hok.2.1, by rw [hok.1]; rfl⟩

end collectors

/-! ## Registration at process start -/

/-- On an allocated registry the `init` of pinger.go returns and leaves "ping" mapped
to the constructor. -/
theorem collectors.initPinger_allocated (lib : collectors.Library) (W : Type)
    (entries : string → Option (collectors.Factory W collectors.Interface)) :
    ∃ registered, collectors.initPinger lib W (GoMap.table entries) = Except.ok registered ∧
      registered.lookup "ping" = some (collectors.pingerFactory lib W) := by
  refine ⟨_, rfl, ?_⟩
  simp [GoMap.lookup]

/-- C14 (registration from the initial state) at the registries as the packages
declare them: the first call `RegisterCollectorType("ping", NewPingerFromConfig)`,
made by the `init` of pinger.go, panics with an assignment to an entry in a nil map,
and so do the `init` of speedtest.go and the `init` of the log reporter on
`registeredReporters`; the initialisation of package `collectors` ends in that
panic, and "ping" is mapped to nothing. -/
theorem C14_init_panics_on_declared_registry (lib : collectors.Library) (W : Type) :
    collectors.initPinger lib W (collectors.registeredCollectors W collectors.Interface)
        = Except.error Panic.nilMapAssign ∧
      collectors.initSpeedTest lib W (collectors.registeredCollectors W collectors.Interface)
        = Except.error Panic.nilMapAssign ∧
      collectors.packageInit lib W = Except.error Panic.nilMapAssign ∧
      reporters.log.initLog W (reporters.registeredReporters W reporters.log.Log)
        = Except.error Panic.nilMapAssign ∧
      (collectors.registeredCollectors W collectors.Interface).lookup "ping" = none := by
  refine ⟨rfl, rfl, rfl, rfl, rfl⟩

/-! ## Nil dereferences in the demultiplexer -/

namespace reporters

/-- A statistic that is not a metric of type "event" without event does not make the
loop panic: the loop panics on the slice exactly when it panics on the rest. -/
theorem reportLoop_cons_panic (l : log.Log) (stat : statistics.Statistic)
    (rest : List statistics.Statistic)
    (hstat : ¬ (stat.Event = none ∧ stat.Type_ = statistics.EventType)) :
    (log.Log.reportLoop l (stat :: rest)).panic = (log.Log.reportLoop l rest).panic := by
  obtain ⟨metric, event⟩ := stat
  cases event with
  | some e =>
    simp [log.Log.reportLoop, statistics.Statistic.Type_, Emitted.after, statistics.EventType]
  | none =>
    cases metric with
    | none =>
      simp [log.Log.reportLoop, statistics.Statistic.Type_, statistics.EventType,
        statistics.MetricTypeCount, statistics.MetricTypeGauge, statistics.MetricTypeTiming,
        statistics.MetricTypeHistogram]
    | some m =>
      have hne : m.MetricType ≠ "event" := by
        intro h
        exact hstat ⟨rfl, by simp [statistics.Statistic.Type_, statistics.EventType, h]⟩
      simp only [log.Log.reportLoop, statistics.Statistic.Type_, statistics.EventType,
        statistics.MetricTypeCount, statistics.MetricTypeGauge, statistics.MetricTypeTiming,
        statistics.MetricTypeHistogram, if_neg hne]
      split_ifs <;> simp [Emitted.after]

/-- A slice that holds a metric of type "event" without event makes the loop panic
with a nil dereference. -/
theorem reportLoop_panics (l : log.Log) (xs : List statistics.Statistic)
    (hx : ∃ stat ∈ xs, stat.Event = none ∧ stat.Type_ = statistics.EventType) :
    (log.Log.reportLoop l xs).panic = some Panic.nilDereference := by
  induction xs with
  | nil =>
    obtain ⟨stat, hmem, _⟩ := hx
    simp at hmem
  | cons head rest ih =>
    by_cases hhead : head.Event = none ∧ head.Type_ = statistics.EventType
    · simp [log.Log.reportLoop, hhead.1, hhead.2, Emitted.panicked]
    · rw [reportLoop_cons_panic l head rest hhead]
      apply ih
      obtain ⟨stat, hmem, hstat⟩ := hx
      rcases List.mem_cons.1 hmem with h | h
      · exact absurd (h ▸ hstat) hhead
      · exact ⟨stat, h, hstat⟩

/-- C15 (totality of `ReportStatistics`) fails on the code: `Log.ReportStatistics`
and `DataDog.ReportStatistics` end in a nil dereference exactly on the buckets that
hold a statistic whose `Type()` is "event" and whose event is absent, that is a
statistic built by `NewStatistic` from a `NewMetric` result of type `EventType` and
no event; on such a statistic at the head of the bucket no emitter call is made at
all.  The branches that read `stat.Metric` never find it absent. -/
theorem C15_panics_iff_event_typed_metric (l : log.Log) (d : datadog.DataDog)
    (b : statistics.Statistics) :
    ((log.Log.ReportStatistics l b).panic = some Panic.nilDereference ↔
        ∃ stat ∈ b.Stats.1, stat.Event = none ∧ stat.Type_ = statistics.EventType) ∧
      ((datadog.DataDog.ReportStatistics d b).panic = some Panic.nilDereference ↔
        ∃ stat ∈ b.Stats.1, stat.Event = none ∧ stat.Type_ = statistics.EventType) ∧
      (∀ (name : string) (value : statistics.Value) (tags : List string)
          (rest : List statistics.Statistic),
        (statistics.NewStatistic
            (some (statistics.NewMetric statistics.EventType name value tags)) none).Type_
          = "event" ∧
        (log.Log.ReportStatistics l
          { statistics := statistics.NewStatistic
              (some (statistics.NewMetric statistics.EventType name value tags)) none :: rest })
          = { calls := [], panic := some Panic.nilDereference } ∧
        (datadog.DataDog.ReportStatistics d
          { statistics := statistics.NewStatistic
              (some (statistics.NewMetric statistics.EventType name value tags)) none :: rest })
          = { calls := [], panic := some Panic.nilDereference }) := by
  have hlog : (log.Log.ReportStatistics l b).panic = some Panic.nilDereference ↔
      ∃ stat ∈ b.Stats.1, stat.Event = none ∧ stat.Type_ = statistics.EventType := by
    constructor
    · intro hp
      by_contra hno
      have hsafe : ∀ stat ∈ b.Stats.1, stat.Type_ = statistics.EventType → stat.Event ≠ none :=
        fun stat hmem hty hev => hno ⟨stat, hmem, hev, hty⟩
      have h := reportLoop_eq_demultiplex l b.Stats.1 hsafe
      unfold log.Log.ReportStatistics at hp
      rw [h] at hp
      simp at hp
    · intro hx
      exact reportLoop_panics l b.Stats.1 hx
  refine ⟨hlog, ?_, ?_⟩
  · have he : datadog.DataDog.ReportStatistics d b = log.Log.ReportStatistics l b :=
      (reportLoop_Log_eq_DataDog l d b.Stats.1).symm
    rw [he]
    exact hlog
  · intro name value tags rest
    exact ⟨rfl, rfl, rfl⟩

end reporters
